import Mathlib

/-!
# BLUE and PI evaluation scripts: measurement harness

A shallow embedding of the three ns-3 experiment scripts

* `BLUE/ns-3/blue-first.cc`  (namespace `BlueFirst`),
* `BLUE/ns-3/blue-fourth.cc` (namespace `BlueFourth`),
* `PI/ns-3/third-mix.cc`     (namespace `ThirdMix`),

where namespace `Blue` holds what the two BLUE scripts have in common: the
callback `CheckQueueSize` and the scheduling part of `main`,

and of the parts of the ns-3 library they drive: the event scheduler
(`Simulator`), the queue-discipline read interface (`QueueDisc`) and the
address helper (`Ipv4AddressHelper`).

Conventions.

* Simulation time is a natural number of nanoseconds (the default ns-3
  resolution); `Seconds n d` is the time `n/d` seconds. Time stamps and the
  unique ids of events are unbounded.
* `Simulator::Stop (delay)` schedules a stop event like any other event, and
  `Simulator::Run ()` processes events in order of time stamp, then of
  scheduling, until the stop event has run or no event is left.
* `uint32_t` values are natural numbers reduced modulo `2^32` wherever the
  source computes with them.
* The `double` accumulator of `third-mix.cc` holds a sum of integers, which is
  exact in a `double` below `2^53` (at the constants of the source the sum is
  at most `1010 * (2^32 - 1)`); it is a rational number. The quotient written
  to the running-average file is rounded to a `double` and then to the six
  significant digits the stream writes. A division by zero has no finite value
  and is rendered as `none`.
* Times and integers are written to the plot files as they are; at the
  horizons of the scripts six significant digits render every sample time
  exactly.
* The queue discipline is driven by packet events that are not part of the
  scripts. It is an oracle: a function from the instant of a read to the value
  read. Packet and application events are not represented in the event list;
  they influence the scripts only through these readings.
* Constants written in the scripts (horizon, monitor intervals) are fields of a
  `Config`; each namespace has `config`, the values of the source.
-/

namespace Ns3

/-- The time `num/den` seconds in nanoseconds, as `Seconds (0.1)` is `Seconds 1 10`. -/
def Seconds (num den : Nat) : Nat := num * 1000000000 / den

/-- Number of values of a `uint32_t`. -/
def UINT32_MOD : Nat := 4294967296

/-- Nearest natural number to `p / q`, a tie going to the even neighbour. -/
def roundHalfEven (p q : Nat) : Nat :=
  let d := p / q
  let r := p % q
  if 2 * r < q then d
  else if q < 2 * r then d + 1
  else if d % 2 = 0 then d else d + 1

/-- Scale the fraction `p / q` by powers of the base `b` until
`lo ≤ p / q < lo * b`; the result is the scaled fraction and the exponent `e`
with `p / q * b ^ (-e)` the scaled value. -/
def scaleLoop (b lo : Nat) : Nat → Nat → Nat → Int → Nat × Nat × Int
  | 0, p, q, e => (p, q, e)
  | f + 1, p, q, e =>
    if p < lo * q then scaleLoop b lo f (b * p) q (e - 1)
    else if lo * b * q ≤ p then scaleLoop b lo f p (b * q) (e + 1)
    else (p, q, e)

/-- The number `x` rounded to a significand between `lo` and `lo * b` in base
`b`, to nearest with ties to even; exponents are not bounded. -/
def roundSignificand (b lo : Nat) (x : ℚ) : ℚ :=
  if x = 0 then 0
  else
    let s := scaleLoop b lo 2200 x.num.natAbs x.den 0
    (if x < 0 then -1 else 1) * (roundHalfEven s.1 s.2.1 : ℚ) * (b : ℚ) ^ s.2.2

/-- The `double` nearest to `x` (IEEE 754 binary64, 53-bit significand, round
to nearest even), for `x` in the range of normal doubles. -/
def roundToDouble (x : ℚ) : ℚ := roundSignificand 2 4503599627370496 x

/-- The number denoted by the text that `ostream << x` writes for a `double`
with the default format and precision: `x` rounded to six significant decimal
digits. -/
def ostreamDouble (x : ℚ) : ℚ := roundSignificand 10 100000 x

/-- The quotient `x / n` of a `double` by a `uint32_t` as it is written to a
plot file: the quotient is rounded to a `double`, and the stream writes the
`double` with six significant digits. A zero divisor gives no finite value
(`none`). -/
def doubleDiv (x : ℚ) (n : Nat) : Option ℚ :=
  if n = 0 then none else some (ostreamDouble (roundToDouble (x / (n : ℚ))))

/-- The statistics record returned by `GetStats` (fields read by the scripts). -/
structure Stats where
  unforcedDrop : Nat
  forcedDrop : Nat
deriving DecidableEq, Repr

/-- Read interface of a queue discipline (BLUE or PI): the value each getter
returns when called at a given instant. -/
structure QueueDisc where
  GetQueueSize : Nat → Nat
  GetStats : Nat → Stats

namespace Simulator

/-- A scheduled event: time stamp, unique id in scheduling order, and the
callback to run; `none` stands for the event that `Simulator::Stop (delay)`
schedules. -/
structure Event (κ : Type) where
  ts : Nat
  uid : Nat
  impl : Option κ
deriving DecidableEq, Repr

/-- Event ordering: earlier time stamp first, equal time stamps in scheduling
order. -/
def Event.before {κ : Type} (a b : Event κ) : Prop :=
  a.ts < b.ts ∨ (a.ts = b.ts ∧ a.uid < b.uid)

instance {κ : Type} (a b : Event κ) : Decidable (Event.before a b) := by
  unfold Event.before
  exact inferInstance

/-- State of the scheduler: pending events in execution order, next unique id,
current time and the stop flag. -/
structure State (κ : Type) where
  events : List (Event κ)
  uid : Nat
  currentTs : Nat
  stop : Bool
deriving DecidableEq, Repr

/-- Scheduler before the first call: no event, time 0; ids 0 to 3 are
reserved. -/
def init {κ : Type} : State κ :=
  { events := [], uid := 4, currentTs := 0, stop := false }

/-- Ordered insertion of an event into the pending list. -/
def Insert {κ : Type} (e : Event κ) : List (Event κ) → List (Event κ)
  | [] => [e]
  | x :: xs => if e.before x then e :: x :: xs else x :: Insert e xs

/-- Current simulation time. -/
def Now {κ : Type} (s : State κ) : Nat := s.currentTs

/-- Schedule a callback `delay` after the current time. -/
def Schedule {κ : Type} (delay : Nat) (cb : Option κ) (s : State κ) : State κ :=
  { s with
    events := Insert { ts := s.currentTs + delay, uid := s.uid, impl := cb } s.events
    uid := s.uid + 1 }

/-- Schedule a callback at the current time. -/
def ScheduleNow {κ : Type} (cb : κ) (s : State κ) : State κ :=
  Schedule 0 (some cb) s

/-- The call `Simulator::Stop (delay)`: schedules the stop event. -/
def Stop {κ : Type} (delay : Nat) (s : State κ) : State κ :=
  Schedule delay none s

end Simulator

/-- Scheduler state together with the script's global variables. -/
structure World (κ γ : Type) where
  sim : Simulator.State κ
  g : γ
deriving DecidableEq, Repr

namespace Simulator

/-- Remove the first pending event, advance the clock to its time stamp and
run it. The stop event raises the stop flag. -/
def ProcessOneEvent {κ γ : Type} (invoke : κ → World κ γ → World κ γ)
    (w : World κ γ) : World κ γ :=
  match w.sim.events with
  | [] => w
  | e :: rest =>
    let w1 : World κ γ := { w with sim := { w.sim with events := rest, currentTs := e.ts } }
    match e.impl with
    | none => { w1 with sim := { w1.sim with stop := true } }
    | some cb => invoke cb w1

/-- The loop of `Simulator::Run`: process events while the list is not empty
and the stop flag is down. `none` when the fuel runs out first. -/
def RunLoop {κ γ : Type} (invoke : κ → World κ γ → World κ γ) :
    Nat → World κ γ → Option (World κ γ)
  | fuel, w =>
    if w.sim.events.isEmpty || w.sim.stop then some w
    else
      match fuel with
      | 0 => none
      | f + 1 => RunLoop invoke f (ProcessOneEvent invoke w)

/-- The call `Simulator::Run ()`: lowers the stop flag and runs the loop. -/
def Run {κ γ : Type} (invoke : κ → World κ γ → World κ γ) (fuel : Nat)
    (w : World κ γ) : Option (World κ γ) :=
  RunLoop invoke fuel { w with sim := { w.sim with stop := false } }

end Simulator

/-- The links of the dumbbell, named after the `NetDeviceContainer` variable that
holds the two devices of the link. -/
inductive Link where
  | devices (i : Nat)
  | udpdevices (i : Nat)
  | devices_sink
  | devices_gateway
deriving DecidableEq, Repr

/-- A net device: the link it belongs to and which end of the link it is. -/
structure NetDevice where
  link : Link
  side : Nat
deriving DecidableEq, Repr

/-- The result of `PointToPointHelper::Install (a, b)`: one device on each of
the two nodes. -/
def PointToPointHelper.Install (l : Link) : List NetDevice :=
  [{ link := l, side := 0 }, { link := l, side := 1 }]

/-- The result of `TrafficControlHelper::Install (c)`: one queue discipline per
device of the container; `discOf` is the discipline created on a device. -/
def TrafficControlHelper.Install (discOf : NetDevice → QueueDisc) (c : List NetDevice) :
    List QueueDisc :=
  c.map discOf

/-- The call `QueueDiscContainer::Get (i)`. -/
def QueueDiscContainer.Get (discs : List QueueDisc) (i : Nat) : Option QueueDisc := discs[i]?

/-- An IPv4 address written `a.b.c.d`. -/
def Ipv4Address (a b c d : Nat) : Nat := a * 16777216 + b * 65536 + c * 256 + d

/-- State of an `Ipv4AddressHelper`. -/
structure Ipv4AddressHelper where
  network : Nat
  mask : Nat
  address : Nat
  base : Nat
  shift : Nat
  max : Nat
deriving DecidableEq, Repr

/-- The addresses given to the devices of one link by one call of `Assign`. -/
structure Ipv4InterfaceContainer where
  link : Link
  addresses : List Nat
  mask : Nat
deriving DecidableEq, Repr

/-- The address block (network address) of an assigned address. -/
def Ipv4InterfaceContainer.blocks (c : Ipv4InterfaceContainer) : List Nat :=
  c.addresses.map (fun a => a &&& c.mask)

/-- The calls a script makes on its address helper after `SetBase`. -/
inductive AddressStep where
  | NewNetwork
  | Assign (l : Link)
deriving DecidableEq, Repr

namespace Ipv4AddressHelper

/-- Loop of `NumAddressBits`: index of the lowest set bit among the first
`n` bits. -/
def NumAddressBitsLoop : Nat → Nat → Nat → Nat
  | 0, _, _ => 0
  | n + 1, i, maskbits =>
    if maskbits % 2 = 1 then i else NumAddressBitsLoop n (i + 1) (maskbits / 2)

/-- Number of host bits of a mask. -/
def NumAddressBits (maskbits : Nat) : Nat := NumAddressBitsLoop 32 0 maskbits

/-- The call `SetBase (network, mask)` with the default base address
`0.0.0.1`. -/
def SetBase (network mask : Nat) : Ipv4AddressHelper :=
  let shift := NumAddressBits mask
  { network := network >>> shift, mask := mask, address := 1, base := 1, shift := shift,
    max := (1 <<< shift) - 2 }

/-- The call `NewNetwork ()`: next network number, host part back to the
base. -/
def NewNetwork (h : Ipv4AddressHelper) : Ipv4AddressHelper :=
  { h with network := h.network + 1, address := h.base }

/-- The call `NewAddress ()`: the current address, and the helper advanced to
the next host. -/
def NewAddress (h : Ipv4AddressHelper) : Nat × Ipv4AddressHelper :=
  ((h.network <<< h.shift) ||| h.address, { h with address := h.address + 1 })

/-- Addresses for a list of devices, one `NewAddress` each. -/
def AssignDevices (h : Ipv4AddressHelper) : List NetDevice → List Nat × Ipv4AddressHelper
  | [] => ([], h)
  | _ :: ds =>
    let r := NewAddress h
    let rest := AssignDevices r.2 ds
    (r.1 :: rest.1, rest.2)

/-- The call `Assign (c)` on the two devices of a link. -/
def Assign (h : Ipv4AddressHelper) (l : Link) : Ipv4InterfaceContainer × Ipv4AddressHelper :=
  let r := AssignDevices h (PointToPointHelper.Install l)
  ({ link := l, addresses := r.1, mask := h.mask }, r.2)

/-- Run the calls of a script in order, collecting the result of every
`Assign`. -/
def exec (h : Ipv4AddressHelper) : List AddressStep → List Ipv4InterfaceContainer
  | [] => []
  | AddressStep.NewNetwork :: rest => exec (NewNetwork h) rest
  | AddressStep.Assign l :: rest =>
    let r := Assign h l
    r.1 :: exec r.2 rest

end Ipv4AddressHelper

/-- The links named by the `Assign` calls of a script, in order. -/
def assignedLinks : List AddressStep → List Link
  | [] => []
  | AddressStep.NewNetwork :: rest => assignedLinks rest
  | AddressStep.Assign l :: rest => l :: assignedLinks rest

/-- The three properties of the addressing section of a script with helper
calls `steps` and installed links `links`: every `Assign` comes right after a
`NewNetwork` of its own; every installed link is assigned exactly once and
nothing else is; every link lies in one address block and the blocks of
different links differ. -/
def addressingOk (links : List Link) (steps : List AddressStep) : Prop :=
  steps = ((assignedLinks steps).map (fun l =>
      [AddressStep.NewNetwork, AddressStep.Assign l])).flatten ∧
  (∀ l ∈ links, (assignedLinks steps).count l = 1) ∧
  (∀ l ∈ assignedLinks steps, l ∈ links) ∧
  (Ipv4AddressHelper.exec
      (Ipv4AddressHelper.SetBase (Ipv4Address 10 0 0 0) (Ipv4Address 255 255 255 0))
      steps).map (fun c => c.link) = assignedLinks steps ∧
  (∀ c ∈ Ipv4AddressHelper.exec
      (Ipv4AddressHelper.SetBase (Ipv4Address 10 0 0 0) (Ipv4Address 255 255 255 0)) steps,
    c.blocks.dedup.length = 1) ∧
  ((Ipv4AddressHelper.exec
      (Ipv4AddressHelper.SetBase (Ipv4Address 10 0 0 0) (Ipv4Address 255 255 255 0))
      steps).map (fun c => c.blocks.dedup)).flatten.Nodup

instance (links : List Link) (steps : List AddressStep) : Decidable (addressingOk links steps) := by
  unfold addressingOk
  exact inferInstance

/-- Example disciplines for the two devices of the bottleneck link: the one on
side `i` always holds `i` packets and has counted `20 + 10 * i` unforced and
`21 + 10 * i` forced drops. -/
def sideDisc (d : NetDevice) : QueueDisc :=
  { GetQueueSize := fun _ => d.side
    GetStats := fun _ => { unforcedDrop := 20 + 10 * d.side, forcedDrop := 21 + 10 * d.side } }

/-- Example disciplines that read as `sideDisc` up to 200 s and differently
afterwards. -/
def lateDisc (d : NetDevice) : QueueDisc :=
  { GetQueueSize := fun t => if t ≤ Seconds 200 1 then d.side else 99
    GetStats := fun t =>
      if t ≤ Seconds 200 1 then
        { unforcedDrop := 20 + 10 * d.side, forcedDrop := 21 + 10 * d.side }
      else { unforcedDrop := 0, forcedDrop := 0 } }

/-- Kinds of application the scripts install. -/
inductive AppKind where
  | BulkSend
  | OnOff
  | PacketSink
deriving DecidableEq, Repr

/-- An installed application with the arguments of its `Start` and `Stop`
calls, in nanoseconds. -/
structure Application where
  kind : AppKind
  startTime : Int
  stopTime : Int
deriving DecidableEq, Repr

/-- What a script leaves behind: the applications it configured, the interface
containers of its links, the scheduler and globals after `Simulator::Run`,
and the integers of the console summary in print order. -/
structure Output (κ γ : Type) where
  applications : List Application
  interfaces : List Ipv4InterfaceContainer
  queueDiscs : List QueueDisc
  world : World κ γ
  console : List Nat

/-- Arithmetic mean of a list of samples. -/
def arithmeticMean (xs : List Nat) : ℚ :=
  (xs.map (fun (x : Nat) => (x : ℚ))).sum / (xs.length : ℚ)

/-- Tick `k` of a monitor of interval `D`, attached at time 0 before the
horizon `H` is set, is executed before the stop event. -/
def fires (H D k : Nat) : Prop := k = 0 ∨ k * D < H

/-- Number of ticks of a monitor of interval `D` executed before the stop event
of horizon `H`. -/
def numTicks (H D : Nat) : Nat := if H = 0 then 1 else (H + D - 1) / D

end Ns3

namespace Blue

open Ns3

/-- The self-rescheduling callback of `blue-first.cc` and `blue-fourth.cc`. -/
inductive Callback where
  | CheckQueueSize
deriving DecidableEq, Repr

/-- Contents of the plot file `filePlotQueue`, as lines in the order
appended. -/
structure Globals where
  filePlotQueue : List (Nat × Nat)
deriving DecidableEq, Repr

/-- The plot file has been removed by `main`. -/
def Globals.init : Globals := { filePlotQueue := [] }

/-- Constants of the two scripts: the delay passed to `Simulator::Stop` and the
delay `CheckQueueSize` passes to `Simulator::Schedule`. -/
structure Config where
  stopTime : Nat
  queueInterval : Nat
deriving DecidableEq, Repr

/-- Function `CheckQueueSize` of `blue-first.cc` and of `blue-fourth.cc`; the
two texts differ in the constant interval only. -/
def CheckQueueSize (interval : Nat) (queue : QueueDisc)
    (w : World Callback Globals) : World Callback Globals :=
  let qSize := queue.GetQueueSize (Simulator.Now w.sim) % UINT32_MOD
  let w1 : World Callback Globals :=
    { w with sim := Simulator.Schedule interval (some Callback.CheckQueueSize) w.sim }
  { w1 with g := { w1.g with
      filePlotQueue := w1.g.filePlotQueue ++ [(Simulator.Now w1.sim, qSize)] } }

/-- Dispatch of a scheduled callback, bound to the queue discipline passed at
scheduling. -/
def invoke (cfg : Config) (queue : QueueDisc) :
    Callback → World Callback Globals → World Callback Globals
  | Callback.CheckQueueSize => CheckQueueSize cfg.queueInterval queue

/-- Scheduling part of `main`: the monitor is attached with `ScheduleNow`, then
the horizon is set with `Simulator::Stop`. -/
def setup (cfg : Config) : World Callback Globals :=
  let s0 : Simulator.State Callback := Simulator.init
  let s1 := Simulator.ScheduleNow Callback.CheckQueueSize s0
  let s2 := Simulator.Stop cfg.stopTime s1
  { sim := s2, g := Globals.init }

/-- The run of `main`: setup followed by `Simulator::Run ()`. -/
def run (cfg : Config) (queue : QueueDisc) (fuel : Nat) : Option (World Callback Globals) :=
  Simulator.Run (invoke cfg queue) fuel (setup cfg)

end Blue

namespace BlueFirst

open Ns3

/-- Values written in `blue-first.cc`: `simDuration = 105` and
`Seconds (0.1)`. -/
def config : Blue.Config := { stopTime := Seconds 105 1, queueInterval := Seconds 1 10 }

/-- Links created by the `Install` calls of `main`, in order. -/
def links : List Link :=
  (List.range 5).map Link.devices ++ [Link.devices_sink, Link.devices_gateway]

/-- Calls on `address` after `SetBase`, in order. -/
def addressSteps : List AddressStep :=
  ((List.range 5).map (fun i => [AddressStep.NewNetwork, AddressStep.Assign (Link.devices i)])).flatten ++
    [AddressStep.NewNetwork, AddressStep.Assign Link.devices_sink,
     AddressStep.NewNetwork, AddressStep.Assign Link.devices_gateway]

/-- Applications installed by the loop over the five sources: a bulk sender and
a packet sink per iteration. -/
def applications (cfg : Blue.Config) : List Application :=
  ((List.range 5).map (fun _ =>
    [{ kind := AppKind.BulkSend, startTime := (Seconds 0 1 : Nat),
       stopTime := (cfg.stopTime : Int) - (Seconds 1 1 : Nat) },
     { kind := AppKind.PacketSink, startTime := (Seconds 0 1 : Nat),
       stopTime := (cfg.stopTime : Int) }])).flatten

/-- Function `main` of `blue-first.cc`, with `writeForPlot` and `printBlueStats`
at their value `true`: queue discs on the two devices of the bottleneck link,
addressing, applications, the run, and the console summary read from
`queueDiscs.Get (0)` after the run. -/
def main (cfg : Blue.Config) (discOf : NetDevice → QueueDisc) (fuel : Nat) :
    Option (Output Blue.Callback Blue.Globals) := do
  let devices_gateway := PointToPointHelper.Install Link.devices_gateway
  let queueDiscs := TrafficControlHelper.Install discOf devices_gateway
  let address := Ipv4AddressHelper.SetBase (Ipv4Address 10 0 0 0) (Ipv4Address 255 255 255 0)
  let interfaces := Ipv4AddressHelper.exec address addressSteps
  let apps := applications cfg
  let queue ← QueueDiscContainer.Get queueDiscs 0
  let w ← Blue.run cfg queue fuel
  let st ← (QueueDiscContainer.Get queueDiscs 0).map (fun q => q.GetStats (Simulator.Now w.sim))
  some { applications := apps, interfaces := interfaces, queueDiscs := queueDiscs, world := w,
         console := [st.unforcedDrop, st.forcedDrop] }

end BlueFirst

namespace BlueFourth

open Ns3

/-- Values written in `blue-fourth.cc`: `Simulator::Stop (Seconds (104))` and
`Seconds (0.01)`. -/
def config : Blue.Config := { stopTime := Seconds 104 1, queueInterval := Seconds 1 100 }

/-- Links created by the `Install` calls of `main`, in order. -/
def links : List Link := [Link.devices_sink, Link.devices_gateway, Link.udpdevices 0]

/-- Calls on `address` after `SetBase`, in order. -/
def addressSteps : List AddressStep :=
  [AddressStep.NewNetwork, AddressStep.Assign (Link.udpdevices 0),
   AddressStep.NewNetwork, AddressStep.Assign Link.devices_gateway,
   AddressStep.NewNetwork, AddressStep.Assign Link.devices_sink]

/-- Applications of `main`: the on/off client and the packet sink. -/
def applications : List Application :=
  [{ kind := AppKind.OnOff, startTime := (Seconds 1 1 : Nat), stopTime := (Seconds 102 1 : Nat) },
   { kind := AppKind.PacketSink, startTime := (Seconds 0 1 : Nat),
     stopTime := (Seconds 102 1 : Nat) }]

/-- Function `main` of `blue-fourth.cc`, with `writeForPlot` and
`printBlueStats` at their value `true`: queue discs on the two devices of the
bottleneck link, addressing, applications, the run, and the console summary
read from `queueDiscs.Get (0)` and `queueDiscs.Get (1)` after the run. -/
def main (cfg : Blue.Config) (discOf : NetDevice → QueueDisc) (fuel : Nat) :
    Option (Output Blue.Callback Blue.Globals) := do
  let devices_gateway := PointToPointHelper.Install Link.devices_gateway
  let queueDiscs := TrafficControlHelper.Install discOf devices_gateway
  let address := Ipv4AddressHelper.SetBase (Ipv4Address 10 0 0 0) (Ipv4Address 255 255 255 0)
  let interfaces := Ipv4AddressHelper.exec address addressSteps
  let apps := applications
  let queue ← QueueDiscContainer.Get queueDiscs 0
  let w ← Blue.run cfg queue fuel
  let st1 ← (QueueDiscContainer.Get queueDiscs 0).map (fun q => q.GetStats (Simulator.Now w.sim))
  let st2 ← (QueueDiscContainer.Get queueDiscs 1).map (fun q => q.GetStats (Simulator.Now w.sim))
  some { applications := apps, interfaces := interfaces, queueDiscs := queueDiscs, world := w,
         console := [st1.unforcedDrop, st1.forcedDrop, st2.unforcedDrop, st2.forcedDrop] }

end BlueFourth


namespace ThirdMix

open Ns3

/-- The self-rescheduling callbacks of `third-mix.cc`. -/
inductive Callback where
  | CheckQueueSize
  | CheckDrops
deriving DecidableEq, Repr

/-- Global variables of `third-mix.cc` and the contents of the three plot
files, as lines in the order appended. -/
structure Globals where
  checkTimes : Nat
  avgQueueSize : ℚ
  filePlotQueue : List (Nat × Nat)
  filePlotQueueAvg : List (Nat × Option ℚ)
  filePlotDrops : List (Nat × Nat)
deriving DecidableEq, Repr

/-- Zero-initialised globals and removed plot files. -/
def Globals.init : Globals :=
  { checkTimes := 0, avgQueueSize := 0, filePlotQueue := [], filePlotQueueAvg := [],
    filePlotDrops := [] }

/-- Constants of `main` and of the callbacks. -/
structure Config where
  stopTime : Nat
  queueInterval : Nat
  dropsInterval : Nat
deriving DecidableEq, Repr

/-- Values written in `third-mix.cc`: `simDuration = 101`, `Seconds (0.1)` in
`CheckQueueSize`, `Seconds (0.01)` in `CheckDrops`. -/
def config : Config :=
  { stopTime := Seconds 101 1, queueInterval := Seconds 1 10, dropsInterval := Seconds 1 100 }

/-- Function `CheckQueueSize` of `third-mix.cc`. -/
def CheckQueueSize (interval : Nat) (queue : QueueDisc)
    (w : World Callback Globals) : World Callback Globals :=
  let qSize := queue.GetQueueSize (Simulator.Now w.sim) % UINT32_MOD
  let w1 : World Callback Globals :=
    { w with g := { w.g with avgQueueSize := w.g.avgQueueSize + (qSize : ℚ) } }
  let w2 : World Callback Globals :=
    { w1 with g := { w1.g with checkTimes := (w1.g.checkTimes + 1) % UINT32_MOD } }
  let w3 : World Callback Globals :=
    { w2 with sim := Simulator.Schedule interval (some Callback.CheckQueueSize) w2.sim }
  let w4 : World Callback Globals :=
    { w3 with g := { w3.g with
        filePlotQueue := w3.g.filePlotQueue ++ [(Simulator.Now w3.sim, qSize)] } }
  { w4 with g := { w4.g with
      filePlotQueueAvg := w4.g.filePlotQueueAvg ++
        [(Simulator.Now w4.sim, doubleDiv w4.g.avgQueueSize w4.g.checkTimes)] } }

/-- Function `CheckDrops` of `third-mix.cc`. -/
def CheckDrops (interval : Nat) (queue : QueueDisc)
    (w : World Callback Globals) : World Callback Globals :=
  let st := queue.GetStats (Simulator.Now w.sim)
  let qDrops := (st.unforcedDrop + st.forcedDrop) % UINT32_MOD
  let w1 : World Callback Globals :=
    { w with sim := Simulator.Schedule interval (some Callback.CheckDrops) w.sim }
  { w1 with g := { w1.g with
      filePlotDrops := w1.g.filePlotDrops ++ [(Simulator.Now w1.sim, qDrops)] } }

/-- Dispatch of a scheduled callback, bound to the queue discipline passed at
scheduling. -/
def invoke (cfg : Config) (queue : QueueDisc) :
    Callback → World Callback Globals → World Callback Globals
  | Callback.CheckQueueSize => CheckQueueSize cfg.queueInterval queue
  | Callback.CheckDrops => CheckDrops cfg.dropsInterval queue

/-- Scheduling part of `main`: both monitors are attached with `ScheduleNow`,
then the horizon is set with `Simulator::Stop`. -/
def setup (cfg : Config) : World Callback Globals :=
  let s0 : Simulator.State Callback := Simulator.init
  let s1 := Simulator.ScheduleNow Callback.CheckQueueSize s0
  let s2 := Simulator.ScheduleNow Callback.CheckDrops s1
  let s3 := Simulator.Stop cfg.stopTime s2
  { sim := s3, g := Globals.init }

/-- The run of `main`: setup followed by `Simulator::Run ()`. -/
def run (cfg : Config) (queue : QueueDisc) (fuel : Nat) : Option (World Callback Globals) :=
  Simulator.Run (invoke cfg queue) fuel (setup cfg)

/-- Links created by the `Install` calls of `main`, in order. -/
def links : List Link :=
  (List.range 5).map Link.devices ++ [Link.devices_sink, Link.devices_gateway] ++
    (List.range 2).map Link.udpdevices

/-- Calls on `address` after `SetBase`, in order. -/
def addressSteps : List AddressStep :=
  ((List.range 5).map (fun i => [AddressStep.NewNetwork, AddressStep.Assign (Link.devices i)])).flatten ++
    ((List.range 2).map (fun i =>
      [AddressStep.NewNetwork, AddressStep.Assign (Link.udpdevices i)])).flatten ++
    [AddressStep.NewNetwork, AddressStep.Assign Link.devices_gateway,
     AddressStep.NewNetwork, AddressStep.Assign Link.devices_sink]

/-- Applications of `main`: a bulk sender and a TCP sink per source in the loop,
then the two on/off clients and the UDP sink. -/
def applications (cfg : Config) : List Application :=
  ((List.range 5).map (fun _ =>
    [{ kind := AppKind.BulkSend, startTime := (Seconds 0 1 : Nat),
       stopTime := (cfg.stopTime : Int) - (Seconds 1 1 : Nat) },
     { kind := AppKind.PacketSink, startTime := (Seconds 0 1 : Nat),
       stopTime := (cfg.stopTime : Int) }])).flatten ++
  [{ kind := AppKind.OnOff, startTime := (Seconds 0 1 : Nat),
     stopTime := (cfg.stopTime : Int) - (Seconds 1 1 : Nat) },
   { kind := AppKind.OnOff, startTime := (Seconds 0 1 : Nat),
     stopTime := (cfg.stopTime : Int) - (Seconds 1 1 : Nat) },
   { kind := AppKind.PacketSink, startTime := (Seconds 0 1 : Nat),
     stopTime := (cfg.stopTime : Int) }]

/-- Function `main` of `third-mix.cc`, with `writeForPlot` and `printPiStats` at
their value `true`: queue discs on the two devices of the bottleneck link,
addressing, applications, the run, and the console summary read from
`queueDiscs.Get (0)` and `queueDiscs.Get (1)` after the run. -/
def main (cfg : Config) (discOf : NetDevice → QueueDisc) (fuel : Nat) :
    Option (Output Callback Globals) := do
  let devices_gateway := PointToPointHelper.Install Link.devices_gateway
  let queueDiscs := TrafficControlHelper.Install discOf devices_gateway
  let address := Ipv4AddressHelper.SetBase (Ipv4Address 10 0 0 0) (Ipv4Address 255 255 255 0)
  let interfaces := Ipv4AddressHelper.exec address addressSteps
  let apps := applications cfg
  let queue ← QueueDiscContainer.Get queueDiscs 0
  let w ← run cfg queue fuel
  let st1 ← (QueueDiscContainer.Get queueDiscs 0).map (fun q => q.GetStats (Simulator.Now w.sim))
  let st2 ← (QueueDiscContainer.Get queueDiscs 1).map (fun q => q.GetStats (Simulator.Now w.sim))
  some { applications := apps, interfaces := interfaces, queueDiscs := queueDiscs, world := w,
         console := [st1.unforcedDrop, st1.forcedDrop, st2.unforcedDrop, st2.forcedDrop] }

end ThirdMix

namespace ThirdMix

open Ns3 Simulator

/-- The stop event of `main`: third event scheduled, after the two monitors. -/
def stopEv (cfg : Config) : Event Callback := { ts := cfg.stopTime, uid := 6, impl := none }
/-- Pending tick number `a` of `CheckQueueSize`, with unique id `u`. -/
def queueEv (cfg : Config) (a u : Nat) : Event Callback :=
  { ts := a * cfg.queueInterval, uid := u, impl := some Callback.CheckQueueSize }
/-- Pending tick number `b` of `CheckDrops`, with unique id `u`. -/
def dropsEv (cfg : Config) (b u : Nat) : Event Callback :=
  { ts := b * cfg.dropsInterval, uid := u, impl := some Callback.CheckDrops }

/-- The queue size read by tick `k` of `CheckQueueSize`. -/
def queueSample (cfg : Config) (queue : QueueDisc) (k : Nat) : Nat :=
  queue.GetQueueSize (k * cfg.queueInterval) % UINT32_MOD

/-- The drop total computed by tick `k` of `CheckDrops`. -/
def dropsSample (cfg : Config) (queue : QueueDisc) (k : Nat) : Nat :=
  ((queue.GetStats (k * cfg.dropsInterval)).unforcedDrop +
    (queue.GetStats (k * cfg.dropsInterval)).forcedDrop) % UINT32_MOD

/-- Sum of the queue sizes read by ticks `0` to `k - 1`. -/
def sampleSum (cfg : Config) (queue : QueueDisc) (k : Nat) : ℚ :=
  ((List.range k).map (fun j => (queueSample cfg queue j : ℚ))).sum

/-- The globals after `a` ticks of `CheckQueueSize` and `b` ticks of
`CheckDrops`, in closed form. -/
def globalsAfter (cfg : Config) (queue : QueueDisc) (a b : Nat) : Globals :=
  { checkTimes := a % UINT32_MOD
    avgQueueSize := sampleSum cfg queue a
    filePlotQueue := (List.range a).map (fun k => (k * cfg.queueInterval, queueSample cfg queue k))
    filePlotQueueAvg := (List.range a).map (fun k =>
      (k * cfg.queueInterval, doubleDiv (sampleSum cfg queue (k + 1)) ((k + 1) % UINT32_MOD)))
    filePlotDrops := (List.range b).map (fun k => (k * cfg.dropsInterval, dropsSample cfg queue k)) }

/-- Invariant of the run between two events, before the stop event: the pending
events are the stop event and one tick of each monitor, and the globals are
those after `a` and `b` ticks. -/
structure Inv (cfg : Config) (queue : QueueDisc) (w : World Callback Globals) (a b : Nat) : Prop where
  ev : ∃ uq ud, w.sim.events = Insert (queueEv cfg a uq) (Insert (dropsEv cfg b ud) [stopEv cfg]) ∧
    uq < w.sim.uid ∧ ud < w.sim.uid ∧ uq ≠ ud ∧ (a = 0 → uq = 4) ∧ (0 < a → 6 < uq) ∧
    (b = 0 → ud = 5) ∧ (0 < b → 6 < ud)
  uid : 6 < w.sim.uid
  stop : w.sim.stop = false
  g : w.g = globalsAfter cfg queue a b

end ThirdMix

namespace ThirdMix

open Ns3

/-- A discipline whose queue holds one packet during the first 0.6 s and is
empty afterwards; it drops nothing. -/
def drainDisc : QueueDisc :=
  { GetQueueSize := fun t => if t < 600000000 then 1 else 0
    GetStats := fun _ => { unforcedDrop := 0, forcedDrop := 0 } }

end ThirdMix

namespace Blue

open Ns3 Simulator

/-- The stop event of `main`: second event scheduled, after the monitor. -/
def stopEv (cfg : Config) : Event Callback := { ts := cfg.stopTime, uid := 5, impl := none }

/-- Pending tick number `a` of `CheckQueueSize`, with unique id `u`. -/
def queueEv (cfg : Config) (a u : Nat) : Event Callback :=
  { ts := a * cfg.queueInterval, uid := u, impl := some Callback.CheckQueueSize }

/-- The queue size read by tick `k` of `CheckQueueSize`. -/
def queueSample (cfg : Config) (queue : QueueDisc) (k : Nat) : Nat :=
  queue.GetQueueSize (k * cfg.queueInterval) % UINT32_MOD

/-- The plot file after `a` ticks of `CheckQueueSize`, in closed form. -/
def globalsAfter (cfg : Config) (queue : QueueDisc) (a : Nat) : Globals :=
  { filePlotQueue := (List.range a).map (fun k => (k * cfg.queueInterval, queueSample cfg queue k)) }

/-- Invariant of the run between two events, before the stop event: the pending
events are the stop event and one tick of the monitor, and the plot file is
that after `a` ticks. -/
structure Inv (cfg : Config) (queue : QueueDisc) (w : World Callback Globals) (a : Nat) : Prop where
  ev : ∃ uq, w.sim.events = Insert (queueEv cfg a uq) [stopEv cfg] ∧
    uq < w.sim.uid ∧ (a = 0 → uq = 4) ∧ (0 < a → 5 < uq)
  uid : 5 < w.sim.uid
  stop : w.sim.stop = false
  g : w.g = globalsAfter cfg queue a

end Blue

namespace Ns3

namespace Simulator

/-- Number of pending events that will run the callback `cb`. -/
def pending {κ : Type} [DecidableEq κ] (cb : κ) (s : State κ) : Nat :=
  s.events.countP (fun e => decide (e.impl = some cb))

/-- The loop of `Simulator::Run` again, returning the worlds at the points
between two event executions: the world the loop starts from, the world after
each event, the last one being the world the loop ends in. -/
def RunTrace {κ γ : Type} (invoke : κ → World κ γ → World κ γ) :
    Nat → World κ γ → List (World κ γ)
  | fuel, w =>
    if w.sim.events.isEmpty || w.sim.stop then [w]
    else
      match fuel with
      | 0 => [w]
      | f + 1 => w :: RunTrace invoke f (ProcessOneEvent invoke w)

end Simulator

end Ns3

namespace Blue

open Ns3

/-- The worlds between two event executions of the run of `main`. -/
def trace (cfg : Config) (queue : QueueDisc) (fuel : Nat) : List (World Callback Globals) :=
  Simulator.RunTrace (invoke cfg queue) fuel
    { setup cfg with sim := { (setup cfg).sim with stop := false } }

end Blue

namespace ThirdMix

open Ns3

/-- The worlds between two event executions of the run of `main`. -/
def trace (cfg : Config) (queue : QueueDisc) (fuel : Nat) : List (World Callback Globals) :=
  Simulator.RunTrace (invoke cfg queue) fuel
    { setup cfg with sim := { (setup cfg).sim with stop := false } }

end ThirdMix

/-! ## Lemmas on the scheduler -/

namespace Ns3

theorem fires_iff_lt_numTicks (H D k : Nat) (hD : 0 < D) :
    fires H D k ↔ k < numTicks H D := by
  unfold fires numTicks
  have key : k * D < H ↔ k < (H + D - 1) / D := by
    rw [Nat.lt_iff_add_one_le, Nat.lt_iff_add_one_le, Nat.le_div_iff_mul_le hD]
    constructor
    · intro h
      have : (k + 1) * D = k * D + D := by ring
      omega
    · intro h
      have : (k + 1) * D = k * D + D := by ring
      omega
  split_ifs with h0
  · subst h0
    simp
  · rw [← key]
    constructor
    · rintro (h | h)
      · subst h; simp; omega
      · exact h
    · intro h; exact Or.inr h

theorem numTicks_mul (n D : Nat) (hD : 0 < D) : numTicks (n * D) D = max n 1 := by
  unfold numTicks
  rcases Nat.eq_zero_or_pos n with hn | hn
  · subst hn; simp
  · have h0 : n * D ≠ 0 := Nat.mul_ne_zero (by omega) (by omega)
    rw [if_neg h0]
    have h1 : (n * D + D - 1) / D = n := by
      apply Nat.div_eq_of_lt_le
      · have : n * D ≤ n * D + D - 1 := by omega
        exact this
      · have : (n + 1) * D = n * D + D := by ring
        omega
    rw [h1]
    omega

namespace Simulator

theorem Insert_comm3 {κ : Type} (x y z : Event κ) (hxy : x.uid ≠ y.uid) :
    Insert x (Insert y [z]) = Insert y (Insert x [z]) := by
  simp only [Simulator.Insert]
  by_cases h1 : x.before z <;> by_cases h2 : y.before z <;> by_cases h3 : x.before y <;>
    by_cases h4 : y.before x <;>
    simp only [h1, h2, h3, h4, if_true, if_false, Simulator.Insert] <;>
    first
      | rfl
      | (exfalso; unfold Event.before at *; omega)

theorem Insert3_cases {κ : Type} (q d s : Event κ) (hqs : q.uid ≠ s.uid)
    (hds : d.uid ≠ s.uid) :
    (q.before s ∧ Insert q (Insert d [s]) = q :: Insert d [s]) ∨
    (d.before s ∧ Insert q (Insert d [s]) = d :: Insert q [s]) ∨
    (s.before q ∧ s.before d ∧ Insert q (Insert d [s]) = s :: Insert q [d]) := by
  simp only [Simulator.Insert]
  by_cases h1 : q.before s <;> by_cases h2 : d.before s <;> by_cases h3 : q.before d <;>
    by_cases h4 : s.before q <;> by_cases h5 : s.before d <;>
    simp only [h1, h2, h3, h4, h5, if_true, if_false, Simulator.Insert, true_and, false_and,
      or_false, false_or, and_true, true_or, or_true, List.cons.injEq, and_self] <;>
    first
      | trivial
      | (unfold Event.before at *; omega)

theorem Insert_ne_nil {κ : Type} (e : Event κ) (l : List (Event κ)) : Insert e l ≠ [] := by
  cases l with
  | nil => simp [Simulator.Insert]
  | cons x xs =>
    simp only [Simulator.Insert]
    split_ifs <;> simp

theorem RunLoop_stop {κ γ : Type} (invoke : κ → World κ γ → World κ γ) (fuel : Nat)
    (w : World κ γ) (h : w.sim.stop = true) : RunLoop invoke fuel w = some w := by
  cases fuel <;> simp [RunLoop, h]

theorem RunLoop_succ {κ γ : Type} (invoke : κ → World κ γ → World κ γ) (fuel : Nat)
    (w : World κ γ) (h : w.sim.stop = false) (he : w.sim.events ≠ []) :
    RunLoop invoke (fuel + 1) w = RunLoop invoke fuel (ProcessOneEvent invoke w) := by
  rw [RunLoop]
  simp [h, he]

end Simulator

end Ns3

/-! ## The run of third-mix -/

namespace ThirdMix

open Ns3 Simulator

theorem mix_sampleSum_succ (cfg : Config) (queue : QueueDisc) (k : Nat) :
    sampleSum cfg queue (k + 1) = sampleSum cfg queue k + (queueSample cfg queue k : ℚ) := by
  simp [sampleSum, List.range_succ]

theorem mix_globalsAfter_queue (cfg : Config) (queue : QueueDisc) (a b : Nat) :
    globalsAfter cfg queue (a + 1) b =
      { globalsAfter cfg queue a b with
        checkTimes := ((globalsAfter cfg queue a b).checkTimes + 1) % UINT32_MOD
        avgQueueSize := (globalsAfter cfg queue a b).avgQueueSize + (queueSample cfg queue a : ℚ)
        filePlotQueue := (globalsAfter cfg queue a b).filePlotQueue ++
          [(a * cfg.queueInterval, queueSample cfg queue a)]
        filePlotQueueAvg := (globalsAfter cfg queue a b).filePlotQueueAvg ++
          [(a * cfg.queueInterval, doubleDiv ((globalsAfter cfg queue a b).avgQueueSize +
            (queueSample cfg queue a : ℚ)) (((globalsAfter cfg queue a b).checkTimes + 1) % UINT32_MOD))] } := by
  simp [globalsAfter, List.range_succ, mix_sampleSum_succ, UINT32_MOD, Nat.add_mod]

theorem mix_globalsAfter_drops (cfg : Config) (queue : QueueDisc) (a b : Nat) :
    globalsAfter cfg queue a (b + 1) =
      { globalsAfter cfg queue a b with
        filePlotDrops := (globalsAfter cfg queue a b).filePlotDrops ++
          [(b * cfg.dropsInterval, dropsSample cfg queue b)] } := by
  simp [globalsAfter, List.range_succ]


theorem mix_step (cfg : Config) (queue : QueueDisc) (w : World Callback Globals) (a b : Nat)
    (h : Inv cfg queue w a b) :
    (fires cfg.stopTime cfg.queueInterval a ∧
        Inv cfg queue (ProcessOneEvent (invoke cfg queue) w) (a + 1) b) ∨
    (fires cfg.stopTime cfg.dropsInterval b ∧
        Inv cfg queue (ProcessOneEvent (invoke cfg queue) w) a (b + 1)) ∨
    (¬ fires cfg.stopTime cfg.queueInterval a ∧ ¬ fires cfg.stopTime cfg.dropsInterval b ∧
        (ProcessOneEvent (invoke cfg queue) w).sim.stop = true ∧
        (ProcessOneEvent (invoke cfg queue) w).sim.currentTs = cfg.stopTime ∧
        (ProcessOneEvent (invoke cfg queue) w).g = w.g) := by
  obtain ⟨⟨uq, ud, hev, h1, h2, h3, h4, h5, h6, h7⟩, hu, hs, hg⟩ := h
  have huq : uq ≠ 6 := by
    rcases Nat.eq_zero_or_pos a with ha | ha
    · have := h4 ha; omega
    · have := h5 ha; omega
  have hud : ud ≠ 6 := by
    rcases Nat.eq_zero_or_pos b with hb | hb
    · have := h6 hb; omega
    · have := h7 hb; omega
  have hfq : ∀ u : Nat, (a = 0 → u = 4) → (0 < a → 6 < u) →
      ((queueEv cfg a u).before (stopEv cfg) ↔ fires cfg.stopTime cfg.queueInterval a) := by
    intro u hu0 hu1
    unfold Event.before fires
    simp only [queueEv, stopEv]
    rcases Nat.eq_zero_or_pos a with ha | ha
    · have := hu0 ha
      subst ha
      simp
      omega
    · have := hu1 ha
      omega
  have hfd : ∀ u : Nat, (b = 0 → u = 5) → (0 < b → 6 < u) →
      ((dropsEv cfg b u).before (stopEv cfg) ↔ fires cfg.stopTime cfg.dropsInterval b) := by
    intro u hu0 hu1
    unfold Event.before fires
    simp only [dropsEv, stopEv]
    rcases Nat.eq_zero_or_pos b with hb | hb
    · have := hu0 hb
      subst hb
      simp
      omega
    · have := hu1 hb
      omega
  rcases Insert3_cases (queueEv cfg a uq) (dropsEv cfg b ud) (stopEv cfg) huq hud with
    ⟨hb, he⟩ | ⟨hb, he⟩ | ⟨hb1, hb2, he⟩
  · left
    rw [he] at hev
    refine ⟨(hfq uq h4 h5).1 hb, ?_⟩
    have hpoe : ProcessOneEvent (invoke cfg queue) w =
        CheckQueueSize cfg.queueInterval queue
          { w with sim := { w.sim with events := Simulator.Insert (dropsEv cfg b ud) [stopEv cfg],
                                       currentTs := a * cfg.queueInterval } } := by
      simp [ProcessOneEvent, hev, queueEv, invoke]
    rw [hpoe]
    refine ⟨⟨w.sim.uid, ud, ?_, ?_, ?_, ?_, ?_, ?_, h6, h7⟩, ?_, ?_, ?_⟩
    · simp [CheckQueueSize, Schedule, queueEv, Nat.succ_mul]
    · simp [CheckQueueSize, Schedule]
    · simp [CheckQueueSize, Schedule]; omega
    · omega
    · intro h; omega
    · intro _; exact hu
    · simp [CheckQueueSize, Schedule]; omega
    · simp [CheckQueueSize, Schedule, hs]
    · rw [mix_globalsAfter_queue, ← hg]
      simp [CheckQueueSize, Schedule, Now, queueSample]
  · right; left
    rw [he] at hev
    refine ⟨(hfd ud h6 h7).1 hb, ?_⟩
    have hpoe : ProcessOneEvent (invoke cfg queue) w =
        CheckDrops cfg.dropsInterval queue
          { w with sim := { w.sim with events := Simulator.Insert (queueEv cfg a uq) [stopEv cfg],
                                       currentTs := b * cfg.dropsInterval } } := by
      simp [ProcessOneEvent, hev, dropsEv, invoke]
    rw [hpoe]
    refine ⟨⟨uq, w.sim.uid, ?_, ?_, ?_, ?_, h4, h5, ?_, ?_⟩, ?_, ?_, ?_⟩
    · have hc := Insert_comm3 (queueEv cfg a uq) (dropsEv cfg (b + 1) w.sim.uid) (stopEv cfg)
        (by simp [queueEv, dropsEv]; omega)
      rw [hc]
      simp [CheckDrops, Schedule, dropsEv, Nat.succ_mul]
    · simp [CheckDrops, Schedule]; omega
    · simp [CheckDrops, Schedule]
    · omega
    · intro h; omega
    · intro _; exact hu
    · simp [CheckDrops, Schedule]; omega
    · simp [CheckDrops, Schedule, hs]
    · rw [mix_globalsAfter_drops, ← hg]
      simp [CheckDrops, Schedule, Now, dropsSample]
  · right; right
    rw [he] at hev
    have hnq : ¬ (queueEv cfg a uq).before (stopEv cfg) := by
      unfold Event.before at *; omega
    have hnd : ¬ (dropsEv cfg b ud).before (stopEv cfg) := by
      unfold Event.before at *; omega
    refine ⟨fun h => hnq ((hfq uq h4 h5).2 h), fun h => hnd ((hfd ud h6 h7).2 h), ?_, ?_, ?_⟩
    · simp [ProcessOneEvent, hev, stopEv]
    · simp [ProcessOneEvent, hev, stopEv]
    · simp [ProcessOneEvent, hev, stopEv]

theorem mix_runLoop_of_inv (cfg : Config) (queue : QueueDisc) (hQ : 0 < cfg.queueInterval)
    (hD : 0 < cfg.dropsInterval) :
    ∀ (fuel a b : Nat) (w : World Callback Globals), Inv cfg queue w a b →
      a ≤ numTicks cfg.stopTime cfg.queueInterval →
      b ≤ numTicks cfg.stopTime cfg.dropsInterval →
      (numTicks cfg.stopTime cfg.queueInterval - a) +
        (numTicks cfg.stopTime cfg.dropsInterval - b) + 1 ≤ fuel →
      ∃ w1, RunLoop (invoke cfg queue) fuel w = some w1 ∧
        w1.g = globalsAfter cfg queue (numTicks cfg.stopTime cfg.queueInterval)
          (numTicks cfg.stopTime cfg.dropsInterval) ∧
        w1.sim.currentTs = cfg.stopTime := by
  intro fuel
  induction fuel with
  | zero => intro a b w _ _ _ hf; omega
  | succ f ih =>
    intro a b w hinv ha hb hf
    have hne : w.sim.events ≠ [] := by
      obtain ⟨uq, ud, hev, _⟩ := hinv.ev
      rw [hev]
      exact Insert_ne_nil _ _
    rw [RunLoop_succ _ _ _ hinv.stop hne]
    rcases mix_step cfg queue w a b hinv with ⟨hfa, hi⟩ | ⟨hfb, hi⟩ | ⟨hna, hnb, hst, hts, hg⟩
    · have hlt := (fires_iff_lt_numTicks _ _ _ hQ).1 hfa
      exact ih (a + 1) b _ hi (by omega) hb (by omega)
    · have hlt := (fires_iff_lt_numTicks _ _ _ hD).1 hfb
      exact ih a (b + 1) _ hi ha (by omega) (by omega)
    · have h1 := (fires_iff_lt_numTicks cfg.stopTime cfg.queueInterval a hQ).not.1 hna
      have h2 := (fires_iff_lt_numTicks cfg.stopTime cfg.dropsInterval b hD).not.1 hnb
      have ea : a = numTicks cfg.stopTime cfg.queueInterval := by omega
      have eb : b = numTicks cfg.stopTime cfg.dropsInterval := by omega
      refine ⟨_, RunLoop_stop _ _ _ hst, ?_, hts⟩
      rw [hg, hinv.g, ← ea, ← eb]

theorem mix_setup_inv (cfg : Config) (queue : QueueDisc) :
    Inv cfg queue { setup cfg with sim := { (setup cfg).sim with stop := false } } 0 0 := by
  refine ⟨⟨4, 5, ?_, ?_, ?_, ?_, ?_, ?_, ?_, ?_⟩, ?_, ?_, ?_⟩
  · have h0 : 0 < cfg.stopTime ∨ 0 = cfg.stopTime := by omega
    simp [setup, Simulator.Stop, ScheduleNow, Schedule, Simulator.init, Simulator.Insert,
      queueEv, dropsEv, stopEv, Event.before, h0]
  all_goals simp [setup, Simulator.Stop, ScheduleNow, Schedule, Simulator.init, globalsAfter,
    Globals.init, sampleSum]

/-- Closed form of the run of third-mix: with enough fuel `Simulator::Run`
returns, at the horizon, with the globals in closed form. -/
theorem mix_run_eq (cfg : Config) (queue : QueueDisc) (hQ : 0 < cfg.queueInterval)
    (hD : 0 < cfg.dropsInterval) (fuel : Nat)
    (hf : numTicks cfg.stopTime cfg.queueInterval +
      numTicks cfg.stopTime cfg.dropsInterval + 1 ≤ fuel) :
    ∃ w, run cfg queue fuel = some w ∧
      w.g = globalsAfter cfg queue (numTicks cfg.stopTime cfg.queueInterval)
        (numTicks cfg.stopTime cfg.dropsInterval) ∧
      w.sim.currentTs = cfg.stopTime := by
  unfold run Simulator.Run
  exact mix_runLoop_of_inv cfg queue hQ hD fuel 0 0 _ (mix_setup_inv cfg queue) (Nat.zero_le _)
    (Nat.zero_le _) (by omega)

end ThirdMix

/-! ## The run of blue-first and blue-fourth -/

namespace Blue

open Ns3 Simulator

theorem blue_globalsAfter_succ (cfg : Config) (queue : QueueDisc) (a : Nat) :
    globalsAfter cfg queue (a + 1) =
      { filePlotQueue := (globalsAfter cfg queue a).filePlotQueue ++
          [(a * cfg.queueInterval, queueSample cfg queue a)] } := by
  simp [globalsAfter, List.range_succ]

theorem blue_step (cfg : Config) (queue : QueueDisc) (w : World Callback Globals) (a : Nat)
    (h : Inv cfg queue w a) :
    (fires cfg.stopTime cfg.queueInterval a ∧
        Inv cfg queue (ProcessOneEvent (invoke cfg queue) w) (a + 1)) ∨
    (¬ fires cfg.stopTime cfg.queueInterval a ∧
        (ProcessOneEvent (invoke cfg queue) w).sim.stop = true ∧
        (ProcessOneEvent (invoke cfg queue) w).sim.currentTs = cfg.stopTime ∧
        (ProcessOneEvent (invoke cfg queue) w).g = w.g) := by
  obtain ⟨⟨uq, hev, h1, h4, h5⟩, hu, hs, hg⟩ := h
  have hfq : (queueEv cfg a uq).before (stopEv cfg) ↔ fires cfg.stopTime cfg.queueInterval a := by
    unfold Event.before fires
    simp only [queueEv, stopEv]
    rcases Nat.eq_zero_or_pos a with ha | ha
    · have := h4 ha
      subst ha
      simp
      omega
    · have := h5 ha
      omega
  by_cases hb : (queueEv cfg a uq).before (stopEv cfg)
  · left
    have he : Insert (queueEv cfg a uq) [stopEv cfg] = [queueEv cfg a uq, stopEv cfg] := by
      simp [Simulator.Insert, hb]
    rw [he] at hev
    refine ⟨hfq.1 hb, ?_⟩
    have hpoe : ProcessOneEvent (invoke cfg queue) w =
        CheckQueueSize cfg.queueInterval queue
          { w with sim := { w.sim with events := [stopEv cfg],
                                       currentTs := a * cfg.queueInterval } } := by
      simp [ProcessOneEvent, hev, queueEv, invoke]
    rw [hpoe]
    refine ⟨⟨w.sim.uid, ?_, ?_, ?_, ?_⟩, ?_, ?_, ?_⟩
    · simp [CheckQueueSize, Schedule, queueEv, Nat.succ_mul]
    · simp [CheckQueueSize, Schedule]
    · intro h; omega
    · intro _; exact hu
    · simp [CheckQueueSize, Schedule]; omega
    · simp [CheckQueueSize, Schedule, hs]
    · rw [blue_globalsAfter_succ, ← hg]
      simp [CheckQueueSize, Schedule, Now, queueSample]
  · right
    have he : Insert (queueEv cfg a uq) [stopEv cfg] = [stopEv cfg, queueEv cfg a uq] := by
      simp [Simulator.Insert, hb]
    rw [he] at hev
    refine ⟨fun h => hb (hfq.2 h), ?_, ?_, ?_⟩
    · simp [ProcessOneEvent, hev, stopEv]
    · simp [ProcessOneEvent, hev, stopEv]
    · simp [ProcessOneEvent, hev, stopEv]

theorem blue_runLoop_of_inv (cfg : Config) (queue : QueueDisc) (hQ : 0 < cfg.queueInterval) :
    ∀ (fuel a : Nat) (w : World Callback Globals), Inv cfg queue w a →
      a ≤ numTicks cfg.stopTime cfg.queueInterval →
      (numTicks cfg.stopTime cfg.queueInterval - a) + 1 ≤ fuel →
      ∃ w1, RunLoop (invoke cfg queue) fuel w = some w1 ∧
        w1.g = globalsAfter cfg queue (numTicks cfg.stopTime cfg.queueInterval) ∧
        w1.sim.currentTs = cfg.stopTime := by
  intro fuel
  induction fuel with
  | zero => intro a w _ _ hf; omega
  | succ f ih =>
    intro a w hinv ha hf
    have hne : w.sim.events ≠ [] := by
      obtain ⟨uq, hev, _⟩ := hinv.ev
      rw [hev]
      exact Insert_ne_nil _ _
    rw [RunLoop_succ _ _ _ hinv.stop hne]
    rcases blue_step cfg queue w a hinv with ⟨hfa, hi⟩ | ⟨hna, hst, hts, hg⟩
    · have hlt := (fires_iff_lt_numTicks _ _ _ hQ).1 hfa
      exact ih (a + 1) _ hi (by omega) (by omega)
    · have h1 := (fires_iff_lt_numTicks cfg.stopTime cfg.queueInterval a hQ).not.1 hna
      have ea : a = numTicks cfg.stopTime cfg.queueInterval := by omega
      refine ⟨_, RunLoop_stop _ _ _ hst, ?_, hts⟩
      rw [hg, hinv.g, ← ea]

theorem blue_setup_inv (cfg : Config) (queue : QueueDisc) :
    Inv cfg queue { setup cfg with sim := { (setup cfg).sim with stop := false } } 0 := by
  refine ⟨⟨4, ?_, ?_, ?_, ?_⟩, ?_, ?_, ?_⟩
  · have h0 : 0 < cfg.stopTime ∨ 0 = cfg.stopTime := by omega
    simp [setup, Simulator.Stop, ScheduleNow, Schedule, Simulator.init, Simulator.Insert,
      queueEv, stopEv, Event.before, h0]
  all_goals simp [setup, Simulator.Stop, ScheduleNow, Schedule, Simulator.init, globalsAfter,
    Globals.init]

/-- Closed form of the run of the BLUE scripts: with enough fuel
`Simulator::Run` returns, at the horizon, with the plot file in closed form. -/
theorem blue_run_eq (cfg : Config) (queue : QueueDisc) (hQ : 0 < cfg.queueInterval)
    (fuel : Nat) (hf : numTicks cfg.stopTime cfg.queueInterval + 1 ≤ fuel) :
    ∃ w, run cfg queue fuel = some w ∧
      w.g = globalsAfter cfg queue (numTicks cfg.stopTime cfg.queueInterval) ∧
      w.sim.currentTs = cfg.stopTime := by
  unfold run Simulator.Run
  exact blue_runLoop_of_inv cfg queue hQ fuel 0 _ (blue_setup_inv cfg queue) (Nat.zero_le _)
    (by omega)

end Blue

/-! ## The three `main` functions in closed form -/

namespace BlueFirst

open Ns3

theorem first_main_eq (cfg : Blue.Config) (discOf : NetDevice → QueueDisc)
    (hQ : 0 < cfg.queueInterval) (fuel : Nat)
    (hf : numTicks cfg.stopTime cfg.queueInterval + 1 ≤ fuel) :
    ∃ out, main cfg discOf fuel = some out ∧
      out.world.g = Blue.globalsAfter cfg (discOf { link := Link.devices_gateway, side := 0 })
        (numTicks cfg.stopTime cfg.queueInterval) ∧
      out.console =
        [((discOf { link := Link.devices_gateway, side := 0 }).GetStats cfg.stopTime).unforcedDrop,
         ((discOf { link := Link.devices_gateway, side := 0 }).GetStats cfg.stopTime).forcedDrop] ∧
      out.applications = applications cfg ∧
      out.queueDiscs = [discOf { link := Link.devices_gateway, side := 0 },
        discOf { link := Link.devices_gateway, side := 1 }] ∧
      out.world.sim.currentTs = cfg.stopTime := by
  obtain ⟨w, hw, hg, hts⟩ :=
    Blue.blue_run_eq cfg (discOf { link := Link.devices_gateway, side := 0 }) hQ fuel hf
  refine ⟨{ applications := applications cfg
            interfaces := Ipv4AddressHelper.exec
              (Ipv4AddressHelper.SetBase (Ipv4Address 10 0 0 0) (Ipv4Address 255 255 255 0))
              addressSteps
            queueDiscs := [discOf { link := Link.devices_gateway, side := 0 },
              discOf { link := Link.devices_gateway, side := 1 }]
            world := w
            console :=
              [((discOf { link := Link.devices_gateway, side := 0 }).GetStats
                  cfg.stopTime).unforcedDrop,
               ((discOf { link := Link.devices_gateway, side := 0 }).GetStats
                  cfg.stopTime).forcedDrop] }, ?_, hg, rfl, rfl, rfl, hts⟩
  simp [main, QueueDiscContainer.Get, TrafficControlHelper.Install, PointToPointHelper.Install,
    hw, Simulator.Now, hts]

end BlueFirst

namespace BlueFourth

open Ns3

theorem fourth_main_eq (cfg : Blue.Config) (discOf : NetDevice → QueueDisc)
    (hQ : 0 < cfg.queueInterval) (fuel : Nat)
    (hf : numTicks cfg.stopTime cfg.queueInterval + 1 ≤ fuel) :
    ∃ out, main cfg discOf fuel = some out ∧
      out.world.g = Blue.globalsAfter cfg (discOf { link := Link.devices_gateway, side := 0 })
        (numTicks cfg.stopTime cfg.queueInterval) ∧
      out.console =
        [((discOf { link := Link.devices_gateway, side := 0 }).GetStats cfg.stopTime).unforcedDrop,
         ((discOf { link := Link.devices_gateway, side := 0 }).GetStats cfg.stopTime).forcedDrop,
         ((discOf { link := Link.devices_gateway, side := 1 }).GetStats cfg.stopTime).unforcedDrop,
         ((discOf { link := Link.devices_gateway, side := 1 }).GetStats cfg.stopTime).forcedDrop] ∧
      out.applications = applications ∧
      out.queueDiscs = [discOf { link := Link.devices_gateway, side := 0 },
        discOf { link := Link.devices_gateway, side := 1 }] ∧
      out.world.sim.currentTs = cfg.stopTime := by
  obtain ⟨w, hw, hg, hts⟩ :=
    Blue.blue_run_eq cfg (discOf { link := Link.devices_gateway, side := 0 }) hQ fuel hf
  refine ⟨{ applications := applications
            interfaces := Ipv4AddressHelper.exec
              (Ipv4AddressHelper.SetBase (Ipv4Address 10 0 0 0) (Ipv4Address 255 255 255 0))
              addressSteps
            queueDiscs := [discOf { link := Link.devices_gateway, side := 0 },
              discOf { link := Link.devices_gateway, side := 1 }]
            world := w
            console :=
              [((discOf { link := Link.devices_gateway, side := 0 }).GetStats
                  cfg.stopTime).unforcedDrop,
               ((discOf { link := Link.devices_gateway, side := 0 }).GetStats
                  cfg.stopTime).forcedDrop,
               ((discOf { link := Link.devices_gateway, side := 1 }).GetStats
                  cfg.stopTime).unforcedDrop,
               ((discOf { link := Link.devices_gateway, side := 1 }).GetStats
                  cfg.stopTime).forcedDrop] }, ?_, hg, rfl, rfl, rfl, hts⟩
  simp [main, QueueDiscContainer.Get, TrafficControlHelper.Install, PointToPointHelper.Install,
    hw, Simulator.Now, hts]

end BlueFourth

namespace ThirdMix

open Ns3

theorem mix_main_eq (cfg : Config) (discOf : NetDevice → QueueDisc)
    (hQ : 0 < cfg.queueInterval) (hD : 0 < cfg.dropsInterval) (fuel : Nat)
    (hf : numTicks cfg.stopTime cfg.queueInterval +
      numTicks cfg.stopTime cfg.dropsInterval + 1 ≤ fuel) :
    ∃ out, main cfg discOf fuel = some out ∧
      out.world.g = globalsAfter cfg (discOf { link := Link.devices_gateway, side := 0 })
        (numTicks cfg.stopTime cfg.queueInterval) (numTicks cfg.stopTime cfg.dropsInterval) ∧
      out.console =
        [((discOf { link := Link.devices_gateway, side := 0 }).GetStats cfg.stopTime).unforcedDrop,
         ((discOf { link := Link.devices_gateway, side := 0 }).GetStats cfg.stopTime).forcedDrop,
         ((discOf { link := Link.devices_gateway, side := 1 }).GetStats cfg.stopTime).unforcedDrop,
         ((discOf { link := Link.devices_gateway, side := 1 }).GetStats cfg.stopTime).forcedDrop] ∧
      out.applications = applications cfg ∧
      out.queueDiscs = [discOf { link := Link.devices_gateway, side := 0 },
        discOf { link := Link.devices_gateway, side := 1 }] ∧
      out.world.sim.currentTs = cfg.stopTime := by
  obtain ⟨w, hw, hg, hts⟩ :=
    mix_run_eq cfg (discOf { link := Link.devices_gateway, side := 0 }) hQ hD fuel hf
  refine ⟨{ applications := applications cfg
            interfaces := Ipv4AddressHelper.exec
              (Ipv4AddressHelper.SetBase (Ipv4Address 10 0 0 0) (Ipv4Address 255 255 255 0))
              addressSteps
            queueDiscs := [discOf { link := Link.devices_gateway, side := 0 },
              discOf { link := Link.devices_gateway, side := 1 }]
            world := w
            console :=
              [((discOf { link := Link.devices_gateway, side := 0 }).GetStats
                  cfg.stopTime).unforcedDrop,
               ((discOf { link := Link.devices_gateway, side := 0 }).GetStats
                  cfg.stopTime).forcedDrop,
               ((discOf { link := Link.devices_gateway, side := 1 }).GetStats
                  cfg.stopTime).unforcedDrop,
               ((discOf { link := Link.devices_gateway, side := 1 }).GetStats
                  cfg.stopTime).forcedDrop] }, ?_, hg, rfl, rfl, rfl, hts⟩
  simp [main, QueueDiscContainer.Get, TrafficControlHelper.Install, PointToPointHelper.Install,
    hw, Simulator.Now, hts]

end ThirdMix

/-! ## Shape of a sample series -/

namespace Ns3

theorem series_getElem {α : Type} (N D : Nat) (f : Nat → α) (k t : Nat) (v : α)
    (h : ((List.range N).map (fun j => (j * D, f j)))[k]? = some (t, v)) :
    k < N ∧ t = k * D ∧ v = f k := by
  rw [List.getElem?_map] at h
  by_cases hk : k < N
  · rw [List.getElem?_range hk] at h
    simp only [Option.map_some', Option.some.injEq, Prod.mk.injEq] at h
    exact ⟨hk, h.1.symm, h.2.symm⟩
  · rw [List.getElem?_eq_none (by simpa using hk)] at h
    simp at h

theorem series_times {α : Type} (N D : Nat) (f : Nat → α) :
    ((List.range N).map (fun j => (j * D, f j))).map Prod.fst =
      (List.range N).map (fun j => j * D) := by
  rw [List.map_map]
  rfl

theorem fires_le (H D k : Nat) (h : fires H D k) : k * D ≤ H := by
  rcases h with h | h
  · subst h; simp
  · omega

theorem tick_le_of_lt_numTicks (H D k : Nat) (hD : 0 < D) (h : k < numTicks H D) :
    k * D ≤ H :=
  fires_le H D k ((fires_iff_lt_numTicks H D k hD).2 h)

end Ns3

/-! ## Dependence of the series on the readings -/

namespace Blue

open Ns3

theorem blue_globalsAfter_congr (cfg : Config) (q1 q2 : QueueDisc) (N : Nat)
    (h : ∀ k, k < N →
      q1.GetQueueSize (k * cfg.queueInterval) = q2.GetQueueSize (k * cfg.queueInterval)) :
    globalsAfter cfg q1 N = globalsAfter cfg q2 N := by
  simp only [globalsAfter, Globals.mk.injEq]
  apply List.map_congr_left
  intro k hk
  simp only [queueSample, h k (List.mem_range.1 hk)]

end Blue

namespace ThirdMix

open Ns3

theorem mix_sampleSum_congr (cfg : Config) (q1 q2 : QueueDisc) (N : Nat)
    (h : ∀ k, k < N →
      q1.GetQueueSize (k * cfg.queueInterval) = q2.GetQueueSize (k * cfg.queueInterval)) :
    sampleSum cfg q1 N = sampleSum cfg q2 N := by
  simp only [sampleSum]
  congr 1
  apply List.map_congr_left
  intro k hk
  simp only [queueSample, h k (List.mem_range.1 hk)]

theorem mix_globalsAfter_congr (cfg : Config) (q1 q2 : QueueDisc) (a b : Nat)
    (hq : ∀ k, k < a →
      q1.GetQueueSize (k * cfg.queueInterval) = q2.GetQueueSize (k * cfg.queueInterval))
    (hd : ∀ k, k < b →
      q1.GetStats (k * cfg.dropsInterval) = q2.GetStats (k * cfg.dropsInterval)) :
    globalsAfter cfg q1 a b = globalsAfter cfg q2 a b := by
  simp only [globalsAfter, Globals.mk.injEq]
  refine ⟨trivial, mix_sampleSum_congr cfg q1 q2 a hq, ?_, ?_, ?_⟩
  · apply List.map_congr_left
    intro k hk
    simp only [queueSample, hq k (List.mem_range.1 hk)]
  · apply List.map_congr_left
    intro k hk
    have hk' := List.mem_range.1 hk
    rw [mix_sampleSum_congr cfg q1 q2 (k + 1) (fun j hj => hq j (by omega))]
  · apply List.map_congr_left
    intro k hk
    simp only [dropsSample, hd k (List.mem_range.1 hk)]

end ThirdMix

/-! ## The written quotient and the lines of a series -/

namespace Ns3

theorem roundSignificand_pos (b lo p q : Nat) (hp : 0 < p) (hq : 0 < q)
    (hc : Nat.Coprime p q) :
    roundSignificand b lo ((p : ℚ) / (q : ℚ)) =
      (roundHalfEven (scaleLoop b lo 2200 p q 0).1 (scaleLoop b lo 2200 p q 0).2.1 : ℚ) *
        (b : ℚ) ^ (scaleLoop b lo 2200 p q 0).2.2 := by
  have hx : (p : ℚ) / (q : ℚ) = ((p : ℤ) : ℚ) / ((q : ℤ) : ℚ) := by push_cast; rfl
  have hq' : (0 : ℤ) < (q : ℤ) := by exact_mod_cast hq
  have hnum : ((p : ℚ) / (q : ℚ)).num = (p : ℤ) := by
    rw [hx]; exact Rat.num_div_eq_of_coprime hq' (by simpa using hc)
  have hden : (((p : ℚ) / (q : ℚ)).den : ℤ) = (q : ℤ) := by
    rw [hx]; exact Rat.den_div_eq_of_coprime hq' (by simpa using hc)
  have hden' : ((p : ℚ) / (q : ℚ)).den = q := by exact_mod_cast hden
  have hpos : (0 : ℚ) < (p : ℚ) / (q : ℚ) := by positivity
  unfold roundSignificand
  rw [if_neg (ne_of_gt hpos), hnum, hden', if_neg (not_lt.2 (le_of_lt hpos))]
  simp

theorem doubleDiv_six_seven : doubleDiv 6 7 = some (857143 / 1000000) := by
  have h1 : roundToDouble ((6 : ℚ) / 7) = 7720456504063707 / 9007199254740992 := by
    have h := roundSignificand_pos 2 4503599627370496 6 7 (by decide) (by decide) (by decide)
    have hs : scaleLoop 2 4503599627370496 2200 6 7 0 =
        (54043195528445952, 7, -53) := by decide
    have hr : roundHalfEven 54043195528445952 7 = 7720456504063707 := by decide
    rw [hs] at h
    simp only [hr] at h
    unfold roundToDouble
    norm_num at h ⊢
    rw [h]
  have h2 : ostreamDouble ((7720456504063707 : ℚ) / 9007199254740992) = 857143 / 1000000 := by
    have h := roundSignificand_pos 10 100000 7720456504063707 9007199254740992 (by decide)
      (by decide) (by decide)
    have hs : scaleLoop 10 100000 2200 7720456504063707 9007199254740992 0 =
        (7720456504063707000000, 9007199254740992, -6) := by decide
    have hr : roundHalfEven 7720456504063707000000 9007199254740992 = 857143 := by decide
    rw [hs] at h
    simp only [hr] at h
    unfold ostreamDouble
    norm_num at h ⊢
    rw [h]
  unfold doubleDiv
  rw [if_neg (by decide)]
  norm_num
  rw [h1, h2]

end Ns3

namespace Ns3

theorem series_getElem_of_lt {α : Type} (N D : Nat) (f : Nat → α) (k : Nat) (hk : k < N) :
    ((List.range N).map (fun j => (j * D, f j)))[k]? = some (k * D, f k) := by
  rw [List.getElem?_map, List.getElem?_range hk]
  rfl

theorem series_getElem_of_fires {α : Type} (H D : Nat) (hD : 0 < D) (f : Nat → α) (k : Nat)
    (hk : k = 0 ∨ k * D < H) :
    ((List.range (numTicks H D)).map (fun j => (j * D, f j)))[k]? = some (0 + k * D, f k) := by
  rw [Nat.zero_add]
  exact series_getElem_of_lt _ _ _ _ ((fires_iff_lt_numTicks H D k hD).1 hk)

end Ns3

/-! ## The claims -/

open Ns3

/-- C1, amended. In third-mix, at every tick `k ≥ 1` of the run (the run has
1010 ticks of `CheckQueueSize`) and for every sequence of queue-size readings,
the value written to the running-average series (`avgQueueSize / checkTimes`,
starting from the zero-initialised globals) is the arithmetic mean of the `k`
occupancy samples read in ticks `1..k`, rounded to the nearest `double` and
written with six significant digits. The samples are the readings of
`GetQueueSize` at the tick times, which are also the values on the first `k`
lines of the occupancy series. -/
theorem c1_running_average_is_mean (discOf : NetDevice → QueueDisc) (fuel k : Nat)
    (hf : numTicks ThirdMix.config.stopTime ThirdMix.config.queueInterval +
      numTicks ThirdMix.config.stopTime ThirdMix.config.dropsInterval + 1 ≤ fuel)
    (hk1 : 1 ≤ k) (hk2 : k ≤ 1010) :
    ∃ out, ThirdMix.main ThirdMix.config discOf fuel = some out ∧
      out.world.g.filePlotQueueAvg.length = 1010 ∧
      (out.world.g.filePlotQueue.take k).map Prod.snd =
        (List.range k).map (fun j =>
          (discOf { link := Link.devices_gateway, side := 0 }).GetQueueSize
            (j * ThirdMix.config.queueInterval) % UINT32_MOD) ∧
      out.world.g.filePlotQueueAvg[k - 1]? =
        some ((k - 1) * ThirdMix.config.queueInterval,
          some (ostreamDouble (roundToDouble (arithmeticMean
            ((List.range k).map (fun j =>
              (discOf { link := Link.devices_gateway, side := 0 }).GetQueueSize
                (j * ThirdMix.config.queueInterval) % UINT32_MOD)))))) := by
  obtain ⟨out, hout, hg, -⟩ :=
    ThirdMix.mix_main_eq ThirdMix.config discOf (by decide) (by decide) fuel hf
  have hN : numTicks ThirdMix.config.stopTime ThirdMix.config.queueInterval = 1010 := by decide
  rw [hN] at hg
  refine ⟨out, hout, ?_, ?_, ?_⟩
  · rw [hg]; simp [ThirdMix.globalsAfter]
  · rw [hg]
    simp only [ThirdMix.globalsAfter]
    rw [← List.map_take, List.take_range, Nat.min_eq_left hk2, List.map_map]
    rfl
  · rw [hg]
    simp only [ThirdMix.globalsAfter]
    have hk' : k - 1 + 1 = k := by omega
    have hU : UINT32_MOD = 4294967296 := rfl
    have hmod : k % UINT32_MOD = k := Nat.mod_eq_of_lt (by rw [hU]; omega)
    have hne : k ≠ 0 := by omega
    have hlt : k - 1 < 1010 := by omega
    have hmean : arithmeticMean ((List.range k).map (fun j =>
          (discOf { link := Link.devices_gateway, side := 0 }).GetQueueSize
            (j * ThirdMix.config.queueInterval) % UINT32_MOD)) =
        ThirdMix.sampleSum ThirdMix.config
          (discOf { link := Link.devices_gateway, side := 0 }) k / (k : ℚ) := by
      simp only [arithmeticMean, List.map_map, List.length_map, List.length_range,
        ThirdMix.sampleSum]
      rfl
    rw [hmean, List.getElem?_map, List.getElem?_range hlt]
    simp only [Option.map_some', hk', hmod, doubleDiv, if_neg hne]

/-- Witness for C1: tick 3 of the run with the disciplines `sideDisc`. -/
theorem c1_running_average_is_mean_witness :
    (numTicks ThirdMix.config.stopTime ThirdMix.config.queueInterval +
        numTicks ThirdMix.config.stopTime ThirdMix.config.dropsInterval + 1 ≤ 11111 ∧
      1 ≤ 3 ∧ 3 ≤ 1010) ∧
    ∃ out, ThirdMix.main ThirdMix.config sideDisc 11111 = some out ∧
      out.world.g.filePlotQueueAvg.length = 1010 ∧
      (out.world.g.filePlotQueue.take 3).map Prod.snd =
        (List.range 3).map (fun j =>
          (sideDisc { link := Link.devices_gateway, side := 0 }).GetQueueSize
            (j * ThirdMix.config.queueInterval) % UINT32_MOD) ∧
      out.world.g.filePlotQueueAvg[3 - 1]? =
        some ((3 - 1) * ThirdMix.config.queueInterval,
          some (ostreamDouble (roundToDouble (arithmeticMean
            ((List.range 3).map (fun j =>
              (sideDisc { link := Link.devices_gateway, side := 0 }).GetQueueSize
                (j * ThirdMix.config.queueInterval) % UINT32_MOD)))))) :=
  ⟨by decide, c1_running_average_is_mean sideDisc 11111 3 (by decide) (by decide) (by decide)⟩

/-- C1 as stated fails in the script as written: with a queue that holds one
packet during the first 0.6 s and is empty afterwards, the seven samples read
in ticks 1 to 7 are `1, 1, 1, 1, 1, 1, 0`, their mean is `6/7`, and the value
written at tick 7 is `0.857143`: the `double` nearest to `6/7` written with six
significant digits, not the mean. -/
theorem c1_counterexample_rounded_mean :
    ∃ out, ThirdMix.main ThirdMix.config (fun _ => ThirdMix.drainDisc) 11111 = some out ∧
      (out.world.g.filePlotQueue.take 7).map Prod.snd = [1, 1, 1, 1, 1, 1, 0] ∧
      arithmeticMean [1, 1, 1, 1, 1, 1, 0] = 6 / 7 ∧
      out.world.g.filePlotQueueAvg[7 - 1]? = some (600000000, some (857143 / 1000000)) ∧
      (857143 / 1000000 : ℚ) ≠ 6 / 7 := by
  obtain ⟨out, hout, hg, -⟩ :=
    ThirdMix.mix_main_eq ThirdMix.config (fun _ => ThirdMix.drainDisc) (by decide) (by decide)
      11111 (by decide)
  have hN : numTicks ThirdMix.config.stopTime ThirdMix.config.queueInterval = 1010 := by decide
  rw [hN] at hg
  refine ⟨out, hout, ?_, ?_, ?_, ?_⟩
  · rw [hg]
    simp only [ThirdMix.globalsAfter]
    rw [← List.map_take, List.take_range, List.map_map]
    decide
  · norm_num [arithmeticMean]
  · rw [hg]
    simp only [ThirdMix.globalsAfter]
    rw [List.getElem?_map, List.getElem?_range (by decide)]
    have hsum : ThirdMix.sampleSum ThirdMix.config ThirdMix.drainDisc (6 + 1) = 6 := by
      have h7 : ∀ j, ThirdMix.queueSample ThirdMix.config ThirdMix.drainDisc j =
          if j < 6 then 1 else 0 := by
        intro j
        have hq : ThirdMix.config.queueInterval = 100000000 := by decide
        have hU : UINT32_MOD = 4294967296 := rfl
        simp only [ThirdMix.queueSample, ThirdMix.drainDisc, hq, hU]
        split_ifs <;> omega
      simp [ThirdMix.sampleSum, h7, List.range_succ]
      norm_num
    have hmod : (6 + 1) % UINT32_MOD = 7 := by decide
    have ht : 6 * ThirdMix.config.queueInterval = 600000000 := by decide
    simp only [Option.map_some', hsum, hmod, ht, doubleDiv_six_seven]
  · norm_num

/-- C2. Every monitor callback (`CheckQueueSize` of blue-first, of blue-fourth
and of third-mix, `CheckDrops` of third-mix) is attached by `ScheduleNow`
before the run, when the clock reads `t0 = 0`, and reschedules itself with its
interval `D > 0`. The run returns, and in each series the sample on line `k`
(counted from 0) carries the time `0 + k * D`, which is not beyond the horizon
passed to `Simulator::Stop`; and for every `k` with `k = 0` or `k * D` before
the horizon, line `k` is emitted, with the time `0 + k * D` and the value read
at that time. -/
theorem c2_sample_times (c1 c4 : Blue.Config) (c3 : ThirdMix.Config)
    (discOf : NetDevice → QueueDisc) (fuel : Nat)
    (h1 : 0 < c1.queueInterval) (h4 : 0 < c4.queueInterval)
    (hq : 0 < c3.queueInterval) (hd : 0 < c3.dropsInterval)
    (hf1 : numTicks c1.stopTime c1.queueInterval + 1 ≤ fuel)
    (hf4 : numTicks c4.stopTime c4.queueInterval + 1 ≤ fuel)
    (hf3 : numTicks c3.stopTime c3.queueInterval + numTicks c3.stopTime c3.dropsInterval + 1
      ≤ fuel) :
    (∃ out, BlueFirst.main c1 discOf fuel = some out ∧
      (∀ k t v, out.world.g.filePlotQueue[k]? = some (t, v) →
        t = 0 + k * c1.queueInterval ∧ t ≤ c1.stopTime) ∧
      (∀ k, (k = 0 ∨ k * c1.queueInterval < c1.stopTime) →
        out.world.g.filePlotQueue[k]? = some (0 + k * c1.queueInterval,
          (discOf { link := Link.devices_gateway, side := 0 }).GetQueueSize
            (k * c1.queueInterval) % UINT32_MOD))) ∧
    (∃ out, BlueFourth.main c4 discOf fuel = some out ∧
      (∀ k t v, out.world.g.filePlotQueue[k]? = some (t, v) →
        t = 0 + k * c4.queueInterval ∧ t ≤ c4.stopTime) ∧
      (∀ k, (k = 0 ∨ k * c4.queueInterval < c4.stopTime) →
        out.world.g.filePlotQueue[k]? = some (0 + k * c4.queueInterval,
          (discOf { link := Link.devices_gateway, side := 0 }).GetQueueSize
            (k * c4.queueInterval) % UINT32_MOD))) ∧
    (∃ out, ThirdMix.main c3 discOf fuel = some out ∧
      (∀ k t v, out.world.g.filePlotQueue[k]? = some (t, v) →
        t = 0 + k * c3.queueInterval ∧ t ≤ c3.stopTime) ∧
      (∀ k t v, out.world.g.filePlotQueueAvg[k]? = some (t, v) →
        t = 0 + k * c3.queueInterval ∧ t ≤ c3.stopTime) ∧
      (∀ k t v, out.world.g.filePlotDrops[k]? = some (t, v) →
        t = 0 + k * c3.dropsInterval ∧ t ≤ c3.stopTime) ∧
      (∀ k, (k = 0 ∨ k * c3.queueInterval < c3.stopTime) →
        out.world.g.filePlotQueue[k]? = some (0 + k * c3.queueInterval,
          (discOf { link := Link.devices_gateway, side := 0 }).GetQueueSize
            (k * c3.queueInterval) % UINT32_MOD) ∧
        ∃ v, out.world.g.filePlotQueueAvg[k]? = some (0 + k * c3.queueInterval, v)) ∧
      (∀ k, (k = 0 ∨ k * c3.dropsInterval < c3.stopTime) →
        out.world.g.filePlotDrops[k]? = some (0 + k * c3.dropsInterval,
          (((discOf { link := Link.devices_gateway, side := 0 }).GetStats
              (k * c3.dropsInterval)).unforcedDrop +
            ((discOf { link := Link.devices_gateway, side := 0 }).GetStats
              (k * c3.dropsInterval)).forcedDrop) % UINT32_MOD))) := by
  refine ⟨?_, ?_, ?_⟩
  · obtain ⟨out, hout, hg, -⟩ := BlueFirst.first_main_eq c1 discOf h1 fuel hf1
    refine ⟨out, hout, ?_, ?_⟩
    · intro k t v h
      rw [hg] at h
      obtain ⟨hk, ht, -⟩ := series_getElem _ _ _ k t v h
      have := tick_le_of_lt_numTicks _ _ k h1 hk
      omega
    · intro k hk
      rw [hg]
      exact series_getElem_of_fires _ _ h1 _ k hk
  · obtain ⟨out, hout, hg, -⟩ := BlueFourth.fourth_main_eq c4 discOf h4 fuel hf4
    refine ⟨out, hout, ?_, ?_⟩
    · intro k t v h
      rw [hg] at h
      obtain ⟨hk, ht, -⟩ := series_getElem _ _ _ k t v h
      have := tick_le_of_lt_numTicks _ _ k h4 hk
      omega
    · intro k hk
      rw [hg]
      exact series_getElem_of_fires _ _ h4 _ k hk
  · obtain ⟨out, hout, hg, -⟩ := ThirdMix.mix_main_eq c3 discOf hq hd fuel hf3
    refine ⟨out, hout, ?_, ?_, ?_, ?_, ?_⟩
    · intro k t v h
      rw [hg] at h
      obtain ⟨hk, ht, -⟩ := series_getElem _ _ _ k t v h
      have := tick_le_of_lt_numTicks _ _ k hq hk
      omega
    · intro k t v h
      rw [hg] at h
      obtain ⟨hk, ht, -⟩ := series_getElem _ _ _ k t v h
      have := tick_le_of_lt_numTicks _ _ k hq hk
      omega
    · intro k t v h
      rw [hg] at h
      obtain ⟨hk, ht, -⟩ := series_getElem _ _ _ k t v h
      have := tick_le_of_lt_numTicks _ _ k hd hk
      omega
    · intro k hk
      rw [hg]
      exact ⟨series_getElem_of_fires _ _ hq _ k hk,
        _, series_getElem_of_fires _ _ hq _ k hk⟩
    · intro k hk
      rw [hg]
      exact series_getElem_of_fires _ _ hd _ k hk

/-- Witness for C2: the sample-time theorem at the constants of the three
scripts. -/
theorem c2_sample_times_witness :
    (0 < BlueFirst.config.queueInterval ∧ 0 < BlueFourth.config.queueInterval ∧
      0 < ThirdMix.config.queueInterval ∧ 0 < ThirdMix.config.dropsInterval ∧
      numTicks BlueFirst.config.stopTime BlueFirst.config.queueInterval + 1 ≤ 11111 ∧
      numTicks BlueFourth.config.stopTime BlueFourth.config.queueInterval + 1 ≤ 11111 ∧
      numTicks ThirdMix.config.stopTime ThirdMix.config.queueInterval +
        numTicks ThirdMix.config.stopTime ThirdMix.config.dropsInterval + 1 ≤ 11111) ∧
    ((∃ out, BlueFirst.main BlueFirst.config sideDisc 11111 = some out ∧
      (∀ k t v, out.world.g.filePlotQueue[k]? = some (t, v) →
        t = 0 + k * BlueFirst.config.queueInterval ∧ t ≤ BlueFirst.config.stopTime) ∧
      (∀ k, (k = 0 ∨ k * BlueFirst.config.queueInterval < BlueFirst.config.stopTime) →
        out.world.g.filePlotQueue[k]? = some (0 + k * BlueFirst.config.queueInterval,
          (sideDisc { link := Link.devices_gateway, side := 0 }).GetQueueSize
            (k * BlueFirst.config.queueInterval) % UINT32_MOD))) ∧
    (∃ out, BlueFourth.main BlueFourth.config sideDisc 11111 = some out ∧
      (∀ k t v, out.world.g.filePlotQueue[k]? = some (t, v) →
        t = 0 + k * BlueFourth.config.queueInterval ∧ t ≤ BlueFourth.config.stopTime) ∧
      (∀ k, (k = 0 ∨ k * BlueFourth.config.queueInterval < BlueFourth.config.stopTime) →
        out.world.g.filePlotQueue[k]? = some (0 + k * BlueFourth.config.queueInterval,
          (sideDisc { link := Link.devices_gateway, side := 0 }).GetQueueSize
            (k * BlueFourth.config.queueInterval) % UINT32_MOD))) ∧
    (∃ out, ThirdMix.main ThirdMix.config sideDisc 11111 = some out ∧
      (∀ k t v, out.world.g.filePlotQueue[k]? = some (t, v) →
        t = 0 + k * ThirdMix.config.queueInterval ∧ t ≤ ThirdMix.config.stopTime) ∧
      (∀ k t v, out.world.g.filePlotQueueAvg[k]? = some (t, v) →
        t = 0 + k * ThirdMix.config.queueInterval ∧ t ≤ ThirdMix.config.stopTime) ∧
      (∀ k t v, out.world.g.filePlotDrops[k]? = some (t, v) →
        t = 0 + k * ThirdMix.config.dropsInterval ∧ t ≤ ThirdMix.config.stopTime) ∧
      (∀ k, (k = 0 ∨ k * ThirdMix.config.queueInterval < ThirdMix.config.stopTime) →
        out.world.g.filePlotQueue[k]? = some (0 + k * ThirdMix.config.queueInterval,
          (sideDisc { link := Link.devices_gateway, side := 0 }).GetQueueSize
            (k * ThirdMix.config.queueInterval) % UINT32_MOD) ∧
        ∃ v, out.world.g.filePlotQueueAvg[k]? = some (0 + k * ThirdMix.config.queueInterval, v)) ∧
      (∀ k, (k = 0 ∨ k * ThirdMix.config.dropsInterval < ThirdMix.config.stopTime) →
        out.world.g.filePlotDrops[k]? = some (0 + k * ThirdMix.config.dropsInterval,
          (((sideDisc { link := Link.devices_gateway, side := 0 }).GetStats
              (k * ThirdMix.config.dropsInterval)).unforcedDrop +
            ((sideDisc { link := Link.devices_gateway, side := 0 }).GetStats
              (k * ThirdMix.config.dropsInterval)).forcedDrop) % UINT32_MOD)))) :=
  ⟨by decide, c2_sample_times BlueFirst.config BlueFourth.config ThirdMix.config sideDisc 11111
    (by decide) (by decide) (by decide) (by decide) (by decide) (by decide) (by decide)⟩

/-- C3, amended. For every monitor attached at time 0 with interval `D > 0` and
every horizon `H = n * D` set by `Simulator::Stop` before the run, the run
returns and the monitor emits exactly `max n 1` samples, at the times
`0, D, ..., (max n 1 - 1) * D`. For `n ≥ 1` these are exactly `n` samples and
the tick that coincides with the horizon is not sampled; for `H = 0` the tick
at time 0 is sampled. -/
theorem c3_sample_count (c1 c4 : Blue.Config) (c3 : ThirdMix.Config)
    (discOf : NetDevice → QueueDisc) (fuel n1 n4 nq nd : Nat)
    (h1 : 0 < c1.queueInterval) (h4 : 0 < c4.queueInterval)
    (hq : 0 < c3.queueInterval) (hd : 0 < c3.dropsInterval)
    (hn1 : c1.stopTime = n1 * c1.queueInterval) (hn4 : c4.stopTime = n4 * c4.queueInterval)
    (hnq : c3.stopTime = nq * c3.queueInterval) (hnd : c3.stopTime = nd * c3.dropsInterval)
    (hf1 : max n1 1 + 1 ≤ fuel) (hf4 : max n4 1 + 1 ≤ fuel)
    (hf3 : max nq 1 + max nd 1 + 1 ≤ fuel) :
    (∃ out, BlueFirst.main c1 discOf fuel = some out ∧
      out.world.g.filePlotQueue.map Prod.fst =
        (List.range (max n1 1)).map (fun k => k * c1.queueInterval)) ∧
    (∃ out, BlueFourth.main c4 discOf fuel = some out ∧
      out.world.g.filePlotQueue.map Prod.fst =
        (List.range (max n4 1)).map (fun k => k * c4.queueInterval)) ∧
    (∃ out, ThirdMix.main c3 discOf fuel = some out ∧
      out.world.g.filePlotQueue.map Prod.fst =
        (List.range (max nq 1)).map (fun k => k * c3.queueInterval) ∧
      out.world.g.filePlotQueueAvg.map Prod.fst =
        (List.range (max nq 1)).map (fun k => k * c3.queueInterval) ∧
      out.world.g.filePlotDrops.map Prod.fst =
        (List.range (max nd 1)).map (fun k => k * c3.dropsInterval)) := by
  have e1 : numTicks c1.stopTime c1.queueInterval = max n1 1 := by
    rw [hn1]; exact numTicks_mul n1 _ h1
  have e4 : numTicks c4.stopTime c4.queueInterval = max n4 1 := by
    rw [hn4]; exact numTicks_mul n4 _ h4
  have eq : numTicks c3.stopTime c3.queueInterval = max nq 1 := by
    rw [hnq]; exact numTicks_mul nq _ hq
  have ed : numTicks c3.stopTime c3.dropsInterval = max nd 1 := by
    rw [hnd]; exact numTicks_mul nd _ hd
  refine ⟨?_, ?_, ?_⟩
  · obtain ⟨out, hout, hg, -⟩ := BlueFirst.first_main_eq c1 discOf h1 fuel (by omega)
    refine ⟨out, hout, ?_⟩
    rw [hg, e1]
    exact series_times _ _ _
  · obtain ⟨out, hout, hg, -⟩ := BlueFourth.fourth_main_eq c4 discOf h4 fuel (by omega)
    refine ⟨out, hout, ?_⟩
    rw [hg, e4]
    exact series_times _ _ _
  · obtain ⟨out, hout, hg, -⟩ := ThirdMix.mix_main_eq c3 discOf hq hd fuel (by omega)
    refine ⟨out, hout, ?_, ?_, ?_⟩
    · rw [hg, eq]; exact series_times _ _ _
    · rw [hg, eq]; exact series_times _ _ _
    · rw [hg, ed]; exact series_times _ _ _

/-- Witness for C3: horizon 10 s and interval 1 s give exactly 10 samples in
every series, at 0 s, 1 s, ..., 9 s. -/
theorem c3_sample_count_witness :
    (0 < Seconds 1 1 ∧ Seconds 10 1 = 10 * Seconds 1 1 ∧ max 10 1 + 1 ≤ 22 ∧
      max 10 1 + max 10 1 + 1 ≤ 22) ∧
    ((∃ out, BlueFirst.main { stopTime := Seconds 10 1, queueInterval := Seconds 1 1 }
        (fun _ => { GetQueueSize := fun _ => 5, GetStats := fun _ => ⟨0, 0⟩ }) 22 = some out ∧
      out.world.g.filePlotQueue.map Prod.fst =
        (List.range (max 10 1)).map (fun k => k * Seconds 1 1)) ∧
    (∃ out, BlueFourth.main { stopTime := Seconds 10 1, queueInterval := Seconds 1 1 }
        (fun _ => { GetQueueSize := fun _ => 5, GetStats := fun _ => ⟨0, 0⟩ }) 22 = some out ∧
      out.world.g.filePlotQueue.map Prod.fst =
        (List.range (max 10 1)).map (fun k => k * Seconds 1 1)) ∧
    (∃ out, ThirdMix.main
        { stopTime := Seconds 10 1, queueInterval := Seconds 1 1, dropsInterval := Seconds 1 1 }
        (fun _ => { GetQueueSize := fun _ => 5, GetStats := fun _ => ⟨0, 0⟩ }) 22 = some out ∧
      out.world.g.filePlotQueue.map Prod.fst =
        (List.range (max 10 1)).map (fun k => k * Seconds 1 1) ∧
      out.world.g.filePlotQueueAvg.map Prod.fst =
        (List.range (max 10 1)).map (fun k => k * Seconds 1 1) ∧
      out.world.g.filePlotDrops.map Prod.fst =
        (List.range (max 10 1)).map (fun k => k * Seconds 1 1))) :=
  ⟨by decide, c3_sample_count
    { stopTime := Seconds 10 1, queueInterval := Seconds 1 1 }
    { stopTime := Seconds 10 1, queueInterval := Seconds 1 1 }
    { stopTime := Seconds 10 1, queueInterval := Seconds 1 1, dropsInterval := Seconds 1 1 }
    _ 22 10 10 10 10 (by decide) (by decide) (by decide) (by decide) (by decide) (by decide)
    (by decide) (by decide) (by decide) (by decide) (by decide)⟩

/-- C3 as stated fails for `n = 0`: with `Simulator::Stop (Seconds (0))`, the
horizon `H = 0 = 0 * D`, the monitor of blue-fourth, scheduled before the stop
event, still runs its tick at time 0, so the occupancy series has one sample
and not zero: the tick that coincides with the horizon is sampled. -/
theorem c3_counterexample_zero_horizon :
    (0 : Nat) = 0 * Seconds 1 100 ∧
    ∃ out, BlueFourth.main { stopTime := 0, queueInterval := Seconds 1 100 }
        (fun _ => { GetQueueSize := fun _ => 5, GetStats := fun _ => ⟨0, 0⟩ }) 2 = some out ∧
      out.world.g.filePlotQueue = [(0, 5)] ∧
      out.world.g.filePlotQueue.length ≠ 0 := by
  refine ⟨by decide, ?_⟩
  obtain ⟨out, hout, hg, -⟩ := BlueFourth.fourth_main_eq
    { stopTime := 0, queueInterval := Seconds 1 100 }
    (fun _ => { GetQueueSize := fun _ => 5, GetStats := fun _ => ⟨0, 0⟩ })
    (by decide) 2 (by decide)
  have hN : numTicks 0 (Seconds 1 100) = 1 := by decide
  have hq : out.world.g.filePlotQueue = [(0, 5)] := by
    rw [hg]
    simp only [Blue.globalsAfter]
    rw [hN]
    decide
  refine ⟨out, hout, hq, ?_⟩
  rw [hq]
  decide

/-- C5. Every application configured in blue-first, blue-fourth and third-mix
(bulk sources, on/off sources, packet sinks) has a start time strictly less than
its stop time, and a stop time less than or equal to the horizon passed to
`Simulator::Stop`. -/
theorem c5_flow_windows :
    (∀ a ∈ BlueFirst.applications BlueFirst.config,
      a.startTime < a.stopTime ∧ a.stopTime ≤ (BlueFirst.config.stopTime : Int)) ∧
    (∀ a ∈ BlueFourth.applications,
      a.startTime < a.stopTime ∧ a.stopTime ≤ (BlueFourth.config.stopTime : Int)) ∧
    (∀ a ∈ ThirdMix.applications ThirdMix.config,
      a.startTime < a.stopTime ∧ a.stopTime ≤ (ThirdMix.config.stopTime : Int)) := by
  refine ⟨?_, ?_, ?_⟩ <;> decide

/-- Witness for C5: the bulk sender of blue-first, the on/off client of
blue-fourth and an on/off client of third-mix. -/
theorem c5_flow_windows_witness :
    (({ kind := AppKind.BulkSend, startTime := 0, stopTime := 104000000000 } : Application) ∈
        BlueFirst.applications BlueFirst.config ∧
      ({ kind := AppKind.OnOff, startTime := 1000000000, stopTime := 102000000000 } :
        Application) ∈ BlueFourth.applications ∧
      ({ kind := AppKind.OnOff, startTime := 0, stopTime := 100000000000 } : Application) ∈
        ThirdMix.applications ThirdMix.config) ∧
    (((0 : Int) < 104000000000 ∧ (104000000000 : Int) ≤ (BlueFirst.config.stopTime : Int)) ∧
      ((1000000000 : Int) < 102000000000 ∧
        (102000000000 : Int) ≤ (BlueFourth.config.stopTime : Int)) ∧
      ((0 : Int) < 100000000000 ∧ (100000000000 : Int) ≤ (ThirdMix.config.stopTime : Int))) :=
  ⟨by decide,
    c5_flow_windows.1 { kind := AppKind.BulkSend, startTime := 0, stopTime := 104000000000 }
      (by decide),
    c5_flow_windows.2.1
      { kind := AppKind.OnOff, startTime := 1000000000, stopTime := 102000000000 } (by decide),
    c5_flow_windows.2.2
      { kind := AppKind.OnOff, startTime := 0, stopTime := 100000000000 } (by decide)⟩

/-- C6. In each script every link (access links, bottleneck link, sink link) is
assigned an address block exactly once, each assignment is preceded by its own
`NewNetwork` step, and the blocks of any two different links are distinct. -/
theorem c6_address_blocks_distinct :
    addressingOk BlueFirst.links BlueFirst.addressSteps ∧
    addressingOk BlueFourth.links BlueFourth.addressSteps ∧
    addressingOk ThirdMix.links ThirdMix.addressSteps := by
  refine ⟨?_, ?_, ?_⟩ <;> decide

/-- C7, amended. Setup attaches one monitor in blue-first and in blue-fourth
(`CheckQueueSize`, sampling the instantaneous occupancy) and two in third-mix
(`CheckQueueSize` and `CheckDrops`). In third-mix every tick of
`CheckQueueSize` appends one line to the occupancy series and one line to the
running-average series and leaves the drop series alone, and every tick of
`CheckDrops` appends one line to the drop series and leaves the other two
alone. -/
theorem c7_monitors_attached (cb : Blue.Config) (cm : ThirdMix.Config) (interval : Nat)
    (queue : QueueDisc) (w : World ThirdMix.Callback ThirdMix.Globals) :
    (Blue.setup cb).sim.events.filterMap (fun e => e.impl) = [Blue.Callback.CheckQueueSize] ∧
    (ThirdMix.setup cm).sim.events.filterMap (fun e => e.impl) =
      [ThirdMix.Callback.CheckQueueSize, ThirdMix.Callback.CheckDrops] ∧
    ((ThirdMix.CheckQueueSize interval queue w).g.filePlotQueue.length =
        w.g.filePlotQueue.length + 1 ∧
      (ThirdMix.CheckQueueSize interval queue w).g.filePlotQueueAvg.length =
        w.g.filePlotQueueAvg.length + 1 ∧
      (ThirdMix.CheckQueueSize interval queue w).g.filePlotDrops = w.g.filePlotDrops) ∧
    ((ThirdMix.CheckDrops interval queue w).g.filePlotDrops.length =
        w.g.filePlotDrops.length + 1 ∧
      (ThirdMix.CheckDrops interval queue w).g.filePlotQueue = w.g.filePlotQueue ∧
      (ThirdMix.CheckDrops interval queue w).g.filePlotQueueAvg = w.g.filePlotQueueAvg) := by
  refine ⟨?_, ?_, ?_, ?_⟩
  · have h := (Blue.blue_setup_inv cb queue).ev
    obtain ⟨uq, hev, -⟩ := h
    simp only at hev
    rw [hev]
    simp only [Simulator.Insert]
    split_ifs <;> simp [Blue.queueEv, Blue.stopEv]
  · have h0 : 0 < cm.stopTime ∨ 0 = cm.stopTime := by omega
    simp [ThirdMix.setup, Simulator.Stop, Simulator.ScheduleNow, Simulator.Schedule,
      Simulator.init, Simulator.Insert, Simulator.Event.before, h0]
  · simp [ThirdMix.CheckQueueSize]
  · simp [ThirdMix.CheckDrops]

/-- C7 as stated fails in blue-first: with the constants of the source, setup
leaves one monitor event in the event list, the tick of `CheckQueueSize`, and
not three. -/
theorem c7_counterexample_blue_first_one_monitor :
    (Blue.setup BlueFirst.config).sim.events.filterMap (fun e => e.impl) =
      [Blue.Callback.CheckQueueSize] ∧
    ((Blue.setup BlueFirst.config).sim.events.filterMap (fun e => e.impl)).length ≠ 3 := by
  decide

/-- C8, amended. Two queue-discipline instances are installed on the bottleneck
link, one per device. After the clock halts, the console summary of blue-fourth
and of third-mix reports, for each of the two instances in order, two integers
read from its statistics at the horizon: the unforced drop count first, then
the forced drop count. The summary of blue-first reports these two integers
for the first instance only. -/
theorem c8_console_summary (c1 c4 : Blue.Config) (c3 : ThirdMix.Config)
    (discOf : NetDevice → QueueDisc) (fuel : Nat)
    (h1 : 0 < c1.queueInterval) (h4 : 0 < c4.queueInterval)
    (hq : 0 < c3.queueInterval) (hd : 0 < c3.dropsInterval)
    (hf1 : numTicks c1.stopTime c1.queueInterval + 1 ≤ fuel)
    (hf4 : numTicks c4.stopTime c4.queueInterval + 1 ≤ fuel)
    (hf3 : numTicks c3.stopTime c3.queueInterval + numTicks c3.stopTime c3.dropsInterval + 1
      ≤ fuel) :
    (∃ out, BlueFirst.main c1 discOf fuel = some out ∧
      out.queueDiscs.length = 2 ∧
      Simulator.Now out.world.sim = c1.stopTime ∧
      out.console = ((out.queueDiscs.take 1).map (fun q =>
        [(q.GetStats (Simulator.Now out.world.sim)).unforcedDrop,
         (q.GetStats (Simulator.Now out.world.sim)).forcedDrop])).flatten) ∧
    (∃ out, BlueFourth.main c4 discOf fuel = some out ∧
      out.queueDiscs.length = 2 ∧
      Simulator.Now out.world.sim = c4.stopTime ∧
      out.console = (out.queueDiscs.map (fun q =>
        [(q.GetStats (Simulator.Now out.world.sim)).unforcedDrop,
         (q.GetStats (Simulator.Now out.world.sim)).forcedDrop])).flatten) ∧
    (∃ out, ThirdMix.main c3 discOf fuel = some out ∧
      out.queueDiscs.length = 2 ∧
      Simulator.Now out.world.sim = c3.stopTime ∧
      out.console = (out.queueDiscs.map (fun q =>
        [(q.GetStats (Simulator.Now out.world.sim)).unforcedDrop,
         (q.GetStats (Simulator.Now out.world.sim)).forcedDrop])).flatten) := by
  refine ⟨?_, ?_, ?_⟩
  · obtain ⟨out, hout, -, hc, -, hq, hts⟩ := BlueFirst.first_main_eq c1 discOf h1 fuel hf1
    refine ⟨out, hout, ?_, hts, ?_⟩
    · rw [hq]; rfl
    · rw [hc, hq]; simp [Simulator.Now, hts]
  · obtain ⟨out, hout, -, hc, -, hq, hts⟩ := BlueFourth.fourth_main_eq c4 discOf h4 fuel hf4
    refine ⟨out, hout, ?_, hts, ?_⟩
    · rw [hq]; rfl
    · rw [hc, hq]; simp [Simulator.Now, hts]
  · obtain ⟨out, hout, -, hc, -, hq', hts⟩ := ThirdMix.mix_main_eq c3 discOf hq hd fuel hf3
    refine ⟨out, hout, ?_, hts, ?_⟩
    · rw [hq']; rfl
    · rw [hc, hq']; simp [Simulator.Now, hts]

/-- Witness for C8: the console theorem at the constants of the three scripts,
with disciplines whose counters tell the two devices apart. -/
theorem c8_console_summary_witness :
    (0 < BlueFirst.config.queueInterval ∧ 0 < BlueFourth.config.queueInterval ∧
      0 < ThirdMix.config.queueInterval ∧ 0 < ThirdMix.config.dropsInterval ∧
      numTicks BlueFirst.config.stopTime BlueFirst.config.queueInterval + 1 ≤ 11111 ∧
      numTicks BlueFourth.config.stopTime BlueFourth.config.queueInterval + 1 ≤ 11111 ∧
      numTicks ThirdMix.config.stopTime ThirdMix.config.queueInterval +
        numTicks ThirdMix.config.stopTime ThirdMix.config.dropsInterval + 1 ≤ 11111) ∧
    ((∃ out, BlueFirst.main BlueFirst.config sideDisc 11111 = some out ∧
      out.queueDiscs.length = 2 ∧
      Simulator.Now out.world.sim = BlueFirst.config.stopTime ∧
      out.console = ((out.queueDiscs.take 1).map (fun q =>
        [(q.GetStats (Simulator.Now out.world.sim)).unforcedDrop,
         (q.GetStats (Simulator.Now out.world.sim)).forcedDrop])).flatten) ∧
    (∃ out, BlueFourth.main BlueFourth.config sideDisc 11111 = some out ∧
      out.queueDiscs.length = 2 ∧
      Simulator.Now out.world.sim = BlueFourth.config.stopTime ∧
      out.console = (out.queueDiscs.map (fun q =>
        [(q.GetStats (Simulator.Now out.world.sim)).unforcedDrop,
         (q.GetStats (Simulator.Now out.world.sim)).forcedDrop])).flatten) ∧
    (∃ out, ThirdMix.main ThirdMix.config sideDisc 11111 = some out ∧
      out.queueDiscs.length = 2 ∧
      Simulator.Now out.world.sim = ThirdMix.config.stopTime ∧
      out.console = (out.queueDiscs.map (fun q =>
        [(q.GetStats (Simulator.Now out.world.sim)).unforcedDrop,
         (q.GetStats (Simulator.Now out.world.sim)).forcedDrop])).flatten)) :=
  ⟨by decide, c8_console_summary BlueFirst.config BlueFourth.config ThirdMix.config sideDisc
    11111 (by decide) (by decide) (by decide) (by decide) (by decide) (by decide) (by decide)⟩

/-- C8 as stated fails in blue-first: two queue-discipline instances are
installed on the bottleneck link, and the summary holds the two integers of
the first one only; the counts `30` and `31` of the second instance are not
reported. -/
theorem c8_counterexample_blue_first_one_instance :
    ∃ out, BlueFirst.main BlueFirst.config sideDisc 1051 = some out ∧
      out.queueDiscs.length = 2 ∧
      out.console = [20, 21] ∧
      (out.queueDiscs.map (fun q =>
        [(q.GetStats (Simulator.Now out.world.sim)).unforcedDrop,
         (q.GetStats (Simulator.Now out.world.sim)).forcedDrop])).flatten = [20, 21, 30, 31] ∧
      out.console ≠ (out.queueDiscs.map (fun q =>
        [(q.GetStats (Simulator.Now out.world.sim)).unforcedDrop,
         (q.GetStats (Simulator.Now out.world.sim)).forcedDrop])).flatten := by
  obtain ⟨out, hout, -, hc, -, hq, hts⟩ :=
    BlueFirst.first_main_eq BlueFirst.config sideDisc (by decide) 1051 (by decide)
  have e1 : out.console = [20, 21] := by rw [hc]; rfl
  have e2 : (out.queueDiscs.map (fun q =>
        [(q.GetStats (Simulator.Now out.world.sim)).unforcedDrop,
         (q.GetStats (Simulator.Now out.world.sim)).forcedDrop])).flatten = [20, 21, 30, 31] := by
    rw [hq]; rfl
  refine ⟨out, hout, ?_, e1, e2, ?_⟩
  · rw [hq]; rfl
  · rw [e1, e2]; decide

/-- C9, amended. The scripts have no check of the flow window and no
invalid-flow-window error. For every horizon of at least one second, `main` of
blue-first and of third-mix returns with the applications configured as
written, every window having `startTime ≤ stopTime`, and with the monitors
attached and sampled from time 0 on. This includes the horizon of exactly one
second, where every sender has `startTime = stopTime`. -/
theorem c9_no_flow_window_check (c1 : Blue.Config) (c3 : ThirdMix.Config)
    (discOf : NetDevice → QueueDisc) (fuel : Nat)
    (h1 : 0 < c1.queueInterval) (hq : 0 < c3.queueInterval) (hd : 0 < c3.dropsInterval)
    (hs1 : Seconds 1 1 ≤ c1.stopTime) (hs3 : Seconds 1 1 ≤ c3.stopTime)
    (hf1 : numTicks c1.stopTime c1.queueInterval + 1 ≤ fuel)
    (hf3 : numTicks c3.stopTime c3.queueInterval + numTicks c3.stopTime c3.dropsInterval + 1
      ≤ fuel) :
    (∃ out, BlueFirst.main c1 discOf fuel = some out ∧
      out.applications = BlueFirst.applications c1 ∧
      (∀ a ∈ out.applications, a.startTime ≤ a.stopTime) ∧
      ({ kind := AppKind.BulkSend, startTime := 0,
         stopTime := (c1.stopTime : Int) - (Seconds 1 1 : Nat) } : Application) ∈
        out.applications ∧
      out.world.g.filePlotQueue ≠ []) ∧
    (∃ out, ThirdMix.main c3 discOf fuel = some out ∧
      out.applications = ThirdMix.applications c3 ∧
      (∀ a ∈ out.applications, a.startTime ≤ a.stopTime) ∧
      ({ kind := AppKind.BulkSend, startTime := 0,
         stopTime := (c3.stopTime : Int) - (Seconds 1 1 : Nat) } : Application) ∈
        out.applications ∧
      out.world.g.filePlotQueue ≠ [] ∧ out.world.g.filePlotDrops ≠ []) := by
  have hpos : ∀ H D : Nat, 0 < D → 0 < numTicks H D := by
    intro H D hD
    exact (fires_iff_lt_numTicks H D 0 hD).1 (Or.inl rfl)
  have hne : ∀ {α : Type} (N : Nat) (f : Nat → α), 0 < N → (List.range N).map f ≠ [] := by
    intro α N f hN h
    have := congrArg List.length h
    simp at this
    omega
  have e0 : Seconds 0 1 = 0 := by decide
  refine ⟨?_, ?_⟩
  · obtain ⟨out, hout, hg, -, ha, -⟩ := BlueFirst.first_main_eq c1 discOf h1 fuel hf1
    refine ⟨out, hout, ha, ?_, ?_, ?_⟩
    · rw [ha]
      intro a hmem
      simp only [BlueFirst.applications, List.mem_flatten, List.mem_map, List.mem_range] at hmem
      obtain ⟨l, ⟨i, -, rfl⟩, hal⟩ := hmem
      simp only [List.mem_cons, List.mem_singleton, List.not_mem_nil, or_false] at hal
      rcases hal with rfl | rfl
      · simp only [e0]; omega
      · simp only [e0]; omega
    · rw [ha]
      simp only [BlueFirst.applications, List.mem_flatten, List.mem_map, List.mem_range]
      exact ⟨_, ⟨0, by decide, rfl⟩, by simp [e0]⟩
    · rw [hg]
      exact hne _ _ (hpos _ _ h1)
  · obtain ⟨out, hout, hg, -, ha, -⟩ := ThirdMix.mix_main_eq c3 discOf hq hd fuel hf3
    refine ⟨out, hout, ha, ?_, ?_, ?_, ?_⟩
    · rw [ha]
      intro a hmem
      simp only [ThirdMix.applications, List.mem_append, List.mem_flatten, List.mem_map,
        List.mem_range, List.mem_cons, List.mem_singleton, List.not_mem_nil, or_false] at hmem
      rcases hmem with ⟨l, ⟨i, -, rfl⟩, hal⟩ | rfl | rfl | rfl
      · simp only [List.mem_cons, List.mem_singleton, List.not_mem_nil, or_false] at hal
        rcases hal with rfl | rfl
        · simp only [e0]; omega
        · simp only [e0]; omega
      · simp only [e0]; omega
      · simp only [e0]; omega
      · simp only [e0]; omega
    · rw [ha]
      simp only [ThirdMix.applications, List.mem_append, List.mem_flatten, List.mem_map,
        List.mem_range]
      exact Or.inl ⟨_, ⟨0, by decide, rfl⟩, by simp [e0]⟩
    · rw [hg]
      exact hne _ _ (hpos _ _ hq)
    · rw [hg]
      exact hne _ _ (hpos _ _ hd)

/-- Witness for C9: the theorem at a horizon of one second, where the bulk
senders are configured with `startTime = stopTime = 0`. -/
theorem c9_no_flow_window_check_witness :
    (0 < Seconds 1 10 ∧ 0 < Seconds 1 100 ∧ Seconds 1 1 ≤ Seconds 1 1 ∧
      numTicks (Seconds 1 1) (Seconds 1 10) + 1 ≤ 111 ∧
      numTicks (Seconds 1 1) (Seconds 1 10) + numTicks (Seconds 1 1) (Seconds 1 100) + 1
        ≤ 111) ∧
    ((∃ out, BlueFirst.main { stopTime := Seconds 1 1, queueInterval := Seconds 1 10 }
        sideDisc 111 = some out ∧
      out.applications =
        BlueFirst.applications { stopTime := Seconds 1 1, queueInterval := Seconds 1 10 } ∧
      (∀ a ∈ out.applications, a.startTime ≤ a.stopTime) ∧
      ({ kind := AppKind.BulkSend, startTime := 0,
         stopTime := ((Seconds 1 1 : Nat) : Int) - (Seconds 1 1 : Nat) } : Application) ∈
        out.applications ∧
      out.world.g.filePlotQueue ≠ []) ∧
    (∃ out, ThirdMix.main
        { stopTime := Seconds 1 1, queueInterval := Seconds 1 10, dropsInterval := Seconds 1 100 }
        sideDisc 111 = some out ∧
      out.applications = ThirdMix.applications
        { stopTime := Seconds 1 1, queueInterval := Seconds 1 10,
          dropsInterval := Seconds 1 100 } ∧
      (∀ a ∈ out.applications, a.startTime ≤ a.stopTime) ∧
      ({ kind := AppKind.BulkSend, startTime := 0,
         stopTime := ((Seconds 1 1 : Nat) : Int) - (Seconds 1 1 : Nat) } : Application) ∈
        out.applications ∧
      out.world.g.filePlotQueue ≠ [] ∧ out.world.g.filePlotDrops ≠ [])) :=
  ⟨by decide, c9_no_flow_window_check
    { stopTime := Seconds 1 1, queueInterval := Seconds 1 10 }
    { stopTime := Seconds 1 1, queueInterval := Seconds 1 10, dropsInterval := Seconds 1 100 }
    sideDisc 111 (by decide) (by decide) (by decide) (by decide) (by decide) (by decide)
    (by decide)⟩

/-- C9 as stated fails: with a horizon of one second the bulk senders of
blue-first are configured with `startTime = stopTime = 0`, a window with
`startTime ≥ stopTime`; nothing is rejected, the monitor is scheduled before the
run, `main` returns and the occupancy series holds the ten samples of the
run. -/
theorem c9_counterexample_equal_window_accepted :
    ∃ out, BlueFirst.main { stopTime := Seconds 1 1, queueInterval := Seconds 1 10 }
        sideDisc 11 = some out ∧
      (∃ a ∈ out.applications, a.kind = AppKind.BulkSend ∧ a.startTime ≥ a.stopTime) ∧
      (Blue.setup { stopTime := Seconds 1 1, queueInterval := Seconds 1 10 }).sim.events ≠ [] ∧
      out.world.g.filePlotQueue.length = 10 := by
  obtain ⟨out, hout, hg, -, ha, -⟩ := BlueFirst.first_main_eq
    { stopTime := Seconds 1 1, queueInterval := Seconds 1 10 } sideDisc (by decide) 11
    (by decide)
  refine ⟨out, hout, ?_, by decide, ?_⟩
  · rw [ha]
    exact ⟨{ kind := AppKind.BulkSend, startTime := 0, stopTime := 0 }, by decide, rfl,
      by decide⟩
  · rw [hg]
    have hN : numTicks (Seconds 1 1) (Seconds 1 10) = 10 := by decide
    simp [Blue.globalsAfter, hN]

/-- C10. Two runs of a script under the same horizon whose disciplines give the
same readings at every instant up to the horizon both return, with identical
sample series (times and values, line for line) and an identical console
summary of the final statistics. The two runs may be given different
amounts of fuel, and the disciplines may differ after the horizon. -/
theorem c10_determinism (c1 c4 : Blue.Config) (c3 : ThirdMix.Config)
    (d1 d2 : NetDevice → QueueDisc) (fuelA fuelB : Nat)
    (h1 : 0 < c1.queueInterval) (h4 : 0 < c4.queueInterval)
    (hq : 0 < c3.queueInterval) (hd : 0 < c3.dropsInterval)
    (hfA : numTicks c1.stopTime c1.queueInterval + 1 ≤ fuelA ∧
      numTicks c4.stopTime c4.queueInterval + 1 ≤ fuelA ∧
      numTicks c3.stopTime c3.queueInterval + numTicks c3.stopTime c3.dropsInterval + 1 ≤ fuelA)
    (hfB : numTicks c1.stopTime c1.queueInterval + 1 ≤ fuelB ∧
      numTicks c4.stopTime c4.queueInterval + 1 ≤ fuelB ∧
      numTicks c3.stopTime c3.queueInterval + numTicks c3.stopTime c3.dropsInterval + 1 ≤ fuelB)
    (hs1 : ∀ dev t, t ≤ c1.stopTime →
      (d1 dev).GetQueueSize t = (d2 dev).GetQueueSize t ∧
      (d1 dev).GetStats t = (d2 dev).GetStats t)
    (hs4 : ∀ dev t, t ≤ c4.stopTime →
      (d1 dev).GetQueueSize t = (d2 dev).GetQueueSize t ∧
      (d1 dev).GetStats t = (d2 dev).GetStats t)
    (hs3 : ∀ dev t, t ≤ c3.stopTime →
      (d1 dev).GetQueueSize t = (d2 dev).GetQueueSize t ∧
      (d1 dev).GetStats t = (d2 dev).GetStats t) :
    (∃ o1 o2, BlueFirst.main c1 d1 fuelA = some o1 ∧ BlueFirst.main c1 d2 fuelB = some o2 ∧
      o1.world.g = o2.world.g ∧ o1.console = o2.console) ∧
    (∃ o1 o2, BlueFourth.main c4 d1 fuelA = some o1 ∧ BlueFourth.main c4 d2 fuelB = some o2 ∧
      o1.world.g = o2.world.g ∧ o1.console = o2.console) ∧
    (∃ o1 o2, ThirdMix.main c3 d1 fuelA = some o1 ∧ ThirdMix.main c3 d2 fuelB = some o2 ∧
      o1.world.g = o2.world.g ∧ o1.console = o2.console) := by
  refine ⟨?_, ?_, ?_⟩
  · obtain ⟨o1, ho1, hg1, hc1, -⟩ := BlueFirst.first_main_eq c1 d1 h1 fuelA hfA.1
    obtain ⟨o2, ho2, hg2, hc2, -⟩ := BlueFirst.first_main_eq c1 d2 h1 fuelB hfB.1
    refine ⟨o1, o2, ho1, ho2, ?_, ?_⟩
    · rw [hg1, hg2]
      apply Blue.blue_globalsAfter_congr
      intro k hk
      exact (hs1 _ _ (tick_le_of_lt_numTicks _ _ k h1 hk)).1
    · rw [hc1, hc2, (hs1 _ c1.stopTime (Nat.le_refl _)).2]
  · obtain ⟨o1, ho1, hg1, hc1, -⟩ := BlueFourth.fourth_main_eq c4 d1 h4 fuelA hfA.2.1
    obtain ⟨o2, ho2, hg2, hc2, -⟩ := BlueFourth.fourth_main_eq c4 d2 h4 fuelB hfB.2.1
    refine ⟨o1, o2, ho1, ho2, ?_, ?_⟩
    · rw [hg1, hg2]
      apply Blue.blue_globalsAfter_congr
      intro k hk
      exact (hs4 _ _ (tick_le_of_lt_numTicks _ _ k h4 hk)).1
    · rw [hc1, hc2, (hs4 _ c4.stopTime (Nat.le_refl _)).2,
        (hs4 _ c4.stopTime (Nat.le_refl _)).2]
  · obtain ⟨o1, ho1, hg1, hc1, -⟩ := ThirdMix.mix_main_eq c3 d1 hq hd fuelA hfA.2.2
    obtain ⟨o2, ho2, hg2, hc2, -⟩ := ThirdMix.mix_main_eq c3 d2 hq hd fuelB hfB.2.2
    refine ⟨o1, o2, ho1, ho2, ?_, ?_⟩
    · rw [hg1, hg2]
      apply ThirdMix.mix_globalsAfter_congr
      · intro k hk
        exact (hs3 _ _ (tick_le_of_lt_numTicks _ _ k hq hk)).1
      · intro k hk
        exact (hs3 _ _ (tick_le_of_lt_numTicks _ _ k hd hk)).2
    · rw [hc1, hc2, (hs3 _ c3.stopTime (Nat.le_refl _)).2,
        (hs3 _ c3.stopTime (Nat.le_refl _)).2]

/-- Witness for C10: the constants of the three scripts, with `sideDisc` in one
run and `lateDisc`, which differs from it after 200 s only, in the other. -/
theorem c10_determinism_witness :
    (0 < BlueFirst.config.queueInterval ∧ 0 < BlueFourth.config.queueInterval ∧
      0 < ThirdMix.config.queueInterval ∧ 0 < ThirdMix.config.dropsInterval ∧
      (numTicks BlueFirst.config.stopTime BlueFirst.config.queueInterval + 1 ≤ 11111 ∧
        numTicks BlueFourth.config.stopTime BlueFourth.config.queueInterval + 1 ≤ 11111 ∧
        numTicks ThirdMix.config.stopTime ThirdMix.config.queueInterval +
          numTicks ThirdMix.config.stopTime ThirdMix.config.dropsInterval + 1 ≤ 11111) ∧
      (numTicks BlueFirst.config.stopTime BlueFirst.config.queueInterval + 1 ≤ 22222 ∧
        numTicks BlueFourth.config.stopTime BlueFourth.config.queueInterval + 1 ≤ 22222 ∧
        numTicks ThirdMix.config.stopTime ThirdMix.config.queueInterval +
          numTicks ThirdMix.config.stopTime ThirdMix.config.dropsInterval + 1 ≤ 22222) ∧
      (∀ dev t, t ≤ Seconds 200 1 →
        (sideDisc dev).GetQueueSize t = (lateDisc dev).GetQueueSize t ∧
        (sideDisc dev).GetStats t = (lateDisc dev).GetStats t) ∧
      (sideDisc { link := Link.devices_gateway, side := 0 }).GetQueueSize (Seconds 201 1) ≠
        (lateDisc { link := Link.devices_gateway, side := 0 }).GetQueueSize (Seconds 201 1)) ∧
    ((∃ o1 o2, BlueFirst.main BlueFirst.config sideDisc 11111 = some o1 ∧
        BlueFirst.main BlueFirst.config lateDisc 22222 = some o2 ∧
        o1.world.g = o2.world.g ∧ o1.console = o2.console) ∧
      (∃ o1 o2, BlueFourth.main BlueFourth.config sideDisc 11111 = some o1 ∧
        BlueFourth.main BlueFourth.config lateDisc 22222 = some o2 ∧
        o1.world.g = o2.world.g ∧ o1.console = o2.console) ∧
      (∃ o1 o2, ThirdMix.main ThirdMix.config sideDisc 11111 = some o1 ∧
        ThirdMix.main ThirdMix.config lateDisc 22222 = some o2 ∧
        o1.world.g = o2.world.g ∧ o1.console = o2.console)) :=
  have hagree : ∀ (dev : NetDevice) (t : Nat), t ≤ Seconds 200 1 →
      (sideDisc dev).GetQueueSize t = (lateDisc dev).GetQueueSize t ∧
      (sideDisc dev).GetStats t = (lateDisc dev).GetStats t := by
    intro dev t ht
    simp [sideDisc, lateDisc, ht]
  have hle1 : BlueFirst.config.stopTime ≤ Seconds 200 1 := by decide
  have hle4 : BlueFourth.config.stopTime ≤ Seconds 200 1 := by decide
  have hle3 : ThirdMix.config.stopTime ≤ Seconds 200 1 := by decide
  ⟨⟨by decide, by decide, by decide, by decide, by decide, by decide, hagree, by decide⟩,
    c10_determinism BlueFirst.config BlueFourth.config ThirdMix.config sideDisc lateDisc
      11111 22222 (by decide) (by decide) (by decide) (by decide) (by decide) (by decide)
      (fun dev t ht => hagree dev t (Nat.le_trans ht hle1))
      (fun dev t ht => hagree dev t (Nat.le_trans ht hle4))
      (fun dev t ht => hagree dev t (Nat.le_trans ht hle3))⟩

/-! ## Worlds between two events -/

namespace Ns3

namespace Simulator

theorem countP_Insert {κ : Type} (p : Event κ → Bool) (e : Event κ) (l : List (Event κ)) :
    (Insert e l).countP p = l.countP p + (if p e = true then 1 else 0) := by
  induction l with
  | nil => simp [Simulator.Insert, List.countP_cons]
  | cons x xs ih =>
    simp only [Simulator.Insert]
    split_ifs with h1 h2
    · simp [List.countP_cons, h2]
    · simp [List.countP_cons, h2]
    · rw [List.countP_cons, ih, List.countP_cons]
      simp_all
      omega
    · rw [List.countP_cons, ih, List.countP_cons]
      simp_all

theorem RunTrace_stop {κ γ : Type} (invoke : κ → World κ γ → World κ γ) (fuel : Nat)
    (w : World κ γ) (h : w.sim.stop = true) : RunTrace invoke fuel w = [w] := by
  cases fuel <;> simp [RunTrace, h]

theorem RunTrace_succ {κ γ : Type} (invoke : κ → World κ γ → World κ γ) (fuel : Nat)
    (w : World κ γ) (h : w.sim.stop = false) (he : w.sim.events ≠ []) :
    RunTrace invoke (fuel + 1) w = w :: RunTrace invoke fuel (ProcessOneEvent invoke w) := by
  rw [RunTrace]
  simp [h, he]

theorem RunTrace_zero {κ γ : Type} (invoke : κ → World κ γ → World κ γ) (w : World κ γ) :
    RunTrace invoke 0 w = [w] := by
  simp [RunTrace]

theorem RunTrace_getLast {κ γ : Type} (invoke : κ → World κ γ → World κ γ) :
    ∀ (fuel : Nat) (w w1 : World κ γ), RunLoop invoke fuel w = some w1 →
      (RunTrace invoke fuel w).getLast? = some w1 := by
  intro fuel
  induction fuel with
  | zero =>
    intro w w1 h
    rw [RunLoop] at h
    rw [RunTrace_zero]
    split_ifs at h with hc
    · simp only [Option.some.injEq] at h
      simp [h]
  | succ f ih =>
    intro w w1 h
    rw [RunLoop] at h
    rw [RunTrace]
    split_ifs at h with hc
    · simp only [Option.some.injEq] at h
      subst h
      rw [if_pos hc]
      rfl
    · simp only [hc]
      have := ih _ _ h
      simp only [Bool.false_eq_true, if_false]
      rw [List.getLast?_cons, this]
      simp

end Simulator

end Ns3

namespace ThirdMix

open Ns3 Simulator

theorem mix_inv_pending (cfg : Config) (queue : QueueDisc) (w : World Callback Globals)
    (a b : Nat) (h : Inv cfg queue w a b) :
    pending Callback.CheckQueueSize w.sim = 1 ∧ pending Callback.CheckDrops w.sim = 1 := by
  obtain ⟨uq, ud, hev, -⟩ := h.ev
  simp [pending, hev, countP_Insert, queueEv, dropsEv, stopEv]

theorem mix_pending_step (cfg : Config) (queue : QueueDisc) (w : World Callback Globals)
    (a b : Nat) (h : Inv cfg queue w a b) :
    pending Callback.CheckQueueSize (ProcessOneEvent (invoke cfg queue) w).sim = 1 ∧
    pending Callback.CheckDrops (ProcessOneEvent (invoke cfg queue) w).sim = 1 := by
  rcases mix_step cfg queue w a b h with ⟨-, hi⟩ | ⟨-, hi⟩ | ⟨-, -, hst, -, -⟩
  · exact mix_inv_pending cfg queue _ _ _ hi
  · exact mix_inv_pending cfg queue _ _ _ hi
  · obtain ⟨uq, ud, hev, -, -, -, h4, h5, h6, h7⟩ := h.ev
    have huq : uq ≠ 6 := by
      rcases Nat.eq_zero_or_pos a with ha | ha
      · have := h4 ha; omega
      · have := h5 ha; omega
    have hud : ud ≠ 6 := by
      rcases Nat.eq_zero_or_pos b with hb | hb
      · have := h6 hb; omega
      · have := h7 hb; omega
    rcases Insert3_cases (queueEv cfg a uq) (dropsEv cfg b ud) (stopEv cfg) huq hud with
      ⟨-, he⟩ | ⟨-, he⟩ | ⟨-, -, he⟩
    · rw [he] at hev
      have : (ProcessOneEvent (invoke cfg queue) w).sim.stop = w.sim.stop := by
        simp [ProcessOneEvent, hev, queueEv, invoke, CheckQueueSize, Schedule]
      rw [h.stop] at this
      rw [this] at hst
      exact absurd hst (by decide)
    · rw [he] at hev
      have : (ProcessOneEvent (invoke cfg queue) w).sim.stop = w.sim.stop := by
        simp [ProcessOneEvent, hev, dropsEv, invoke, CheckDrops, Schedule]
      rw [h.stop] at this
      rw [this] at hst
      exact absurd hst (by decide)
    · rw [he] at hev
      simp [pending, ProcessOneEvent, hev, stopEv, countP_Insert, queueEv, dropsEv]

theorem mix_trace_inv (cfg : Config) (queue : QueueDisc) (hQ : 0 < cfg.queueInterval)
    (hD : 0 < cfg.dropsInterval) :
    ∀ (fuel a b : Nat) (w : World Callback Globals), Inv cfg queue w a b →
      a ≤ numTicks cfg.stopTime cfg.queueInterval →
      b ≤ numTicks cfg.stopTime cfg.dropsInterval →
      ∀ w1 ∈ RunTrace (invoke cfg queue) fuel w,
        (pending Callback.CheckQueueSize w1.sim = 1 ∧ pending Callback.CheckDrops w1.sim = 1) ∧
        ∃ a1 b1, a1 ≤ numTicks cfg.stopTime cfg.queueInterval ∧
          b1 ≤ numTicks cfg.stopTime cfg.dropsInterval ∧
          w1.g = globalsAfter cfg queue a1 b1 := by
  intro fuel
  induction fuel with
  | zero =>
    intro a b w hinv ha hb w1 hw1
    rw [RunTrace_zero] at hw1
    rw [List.mem_singleton] at hw1
    subst hw1
    exact ⟨mix_inv_pending cfg queue _ _ _ hinv, a, b, ha, hb, hinv.g⟩
  | succ f ih =>
    intro a b w hinv ha hb w1 hw1
    have hne : w.sim.events ≠ [] := by
      obtain ⟨uq, ud, hev, _⟩ := hinv.ev
      rw [hev]
      exact Insert_ne_nil _ _
    rw [RunTrace_succ _ _ _ hinv.stop hne, List.mem_cons] at hw1
    rcases hw1 with hw1 | hw1
    · subst hw1
      exact ⟨mix_inv_pending cfg queue _ _ _ hinv, a, b, ha, hb, hinv.g⟩
    · rcases mix_step cfg queue w a b hinv with ⟨hfa, hi⟩ | ⟨hfb, hi⟩ | ⟨-, -, hst, -, hg⟩
      · have hlt := (fires_iff_lt_numTicks _ _ _ hQ).1 hfa
        exact ih (a + 1) b _ hi (by omega) hb w1 hw1
      · have hlt := (fires_iff_lt_numTicks _ _ _ hD).1 hfb
        exact ih a (b + 1) _ hi ha (by omega) w1 hw1
      · rw [RunTrace_stop _ _ _ hst, List.mem_singleton] at hw1
        subst hw1
        exact ⟨mix_pending_step cfg queue w a b hinv, a, b, ha, hb, by rw [hg, hinv.g]⟩

/-- The run of third-mix and its trace: with enough fuel `main` returns the last
world of the trace, and every world of the trace has one pending tick of each
monitor and the globals of some numbers of ticks within the run. -/
theorem mix_main_trace (cfg : Config) (discOf : NetDevice → QueueDisc)
    (hQ : 0 < cfg.queueInterval) (hD : 0 < cfg.dropsInterval) (fuel : Nat)
    (hf : numTicks cfg.stopTime cfg.queueInterval +
      numTicks cfg.stopTime cfg.dropsInterval + 1 ≤ fuel) :
    ∃ out, main cfg discOf fuel = some out ∧
      out.world.g = globalsAfter cfg (discOf { link := Link.devices_gateway, side := 0 })
        (numTicks cfg.stopTime cfg.queueInterval) (numTicks cfg.stopTime cfg.dropsInterval) ∧
      (trace cfg (discOf { link := Link.devices_gateway, side := 0 }) fuel).getLast? =
        some out.world ∧
      ∀ w1 ∈ trace cfg (discOf { link := Link.devices_gateway, side := 0 }) fuel,
        (pending Callback.CheckQueueSize w1.sim = 1 ∧ pending Callback.CheckDrops w1.sim = 1) ∧
        ∃ a1 b1, a1 ≤ numTicks cfg.stopTime cfg.queueInterval ∧
          b1 ≤ numTicks cfg.stopTime cfg.dropsInterval ∧
          w1.g = globalsAfter cfg (discOf { link := Link.devices_gateway, side := 0 }) a1 b1 := by
  obtain ⟨w, hw, hg, hts⟩ :=
    mix_run_eq cfg (discOf { link := Link.devices_gateway, side := 0 }) hQ hD fuel hf
  refine ⟨{ applications := applications cfg
            interfaces := Ipv4AddressHelper.exec
              (Ipv4AddressHelper.SetBase (Ipv4Address 10 0 0 0) (Ipv4Address 255 255 255 0))
              addressSteps
            queueDiscs := [discOf { link := Link.devices_gateway, side := 0 },
              discOf { link := Link.devices_gateway, side := 1 }]
            world := w
            console :=
              [((discOf { link := Link.devices_gateway, side := 0 }).GetStats
                  cfg.stopTime).unforcedDrop,
               ((discOf { link := Link.devices_gateway, side := 0 }).GetStats
                  cfg.stopTime).forcedDrop,
               ((discOf { link := Link.devices_gateway, side := 1 }).GetStats
                  cfg.stopTime).unforcedDrop,
               ((discOf { link := Link.devices_gateway, side := 1 }).GetStats
                  cfg.stopTime).forcedDrop] }, ?_, hg, ?_, ?_⟩
  · simp [main, QueueDiscContainer.Get, TrafficControlHelper.Install,
      PointToPointHelper.Install, hw, Simulator.Now, hts]
  · exact RunTrace_getLast _ _ _ _ hw
  · exact mix_trace_inv cfg _ hQ hD fuel 0 0 _ (mix_setup_inv cfg _) (Nat.zero_le _)
      (Nat.zero_le _)

end ThirdMix

namespace Blue

open Ns3 Simulator

theorem blue_inv_pending (cfg : Config) (queue : QueueDisc) (w : World Callback Globals)
    (a : Nat) (h : Inv cfg queue w a) :
    pending Callback.CheckQueueSize w.sim = 1 := by
  obtain ⟨uq, hev, -⟩ := h.ev
  simp [pending, hev, countP_Insert, queueEv, stopEv]

theorem blue_pending_step (cfg : Config) (queue : QueueDisc) (w : World Callback Globals)
    (a : Nat) (h : Inv cfg queue w a) :
    pending Callback.CheckQueueSize (ProcessOneEvent (invoke cfg queue) w).sim = 1 := by
  rcases blue_step cfg queue w a h with ⟨-, hi⟩ | ⟨-, hst, -, -⟩
  · exact blue_inv_pending cfg queue _ _ hi
  · obtain ⟨uq, hev, -⟩ := h.ev
    by_cases hb : (queueEv cfg a uq).before (stopEv cfg)
    · have he : Insert (queueEv cfg a uq) [stopEv cfg] = [queueEv cfg a uq, stopEv cfg] := by
        simp [Simulator.Insert, hb]
      rw [he] at hev
      have : (ProcessOneEvent (invoke cfg queue) w).sim.stop = w.sim.stop := by
        simp [ProcessOneEvent, hev, queueEv, invoke, CheckQueueSize, Schedule]
      rw [h.stop] at this
      rw [this] at hst
      exact absurd hst (by decide)
    · have he : Insert (queueEv cfg a uq) [stopEv cfg] = [stopEv cfg, queueEv cfg a uq] := by
        simp [Simulator.Insert, hb]
      rw [he] at hev
      simp [pending, ProcessOneEvent, hev, stopEv, queueEv]

theorem blue_trace_inv (cfg : Config) (queue : QueueDisc) (hQ : 0 < cfg.queueInterval) :
    ∀ (fuel a : Nat) (w : World Callback Globals), Inv cfg queue w a →
      a ≤ numTicks cfg.stopTime cfg.queueInterval →
      ∀ w1 ∈ RunTrace (invoke cfg queue) fuel w,
        pending Callback.CheckQueueSize w1.sim = 1 ∧
        ∃ a1, a1 ≤ numTicks cfg.stopTime cfg.queueInterval ∧
          w1.g = globalsAfter cfg queue a1 := by
  intro fuel
  induction fuel with
  | zero =>
    intro a w hinv ha w1 hw1
    rw [RunTrace_zero] at hw1
    rw [List.mem_singleton] at hw1
    subst hw1
    exact ⟨blue_inv_pending cfg queue _ _ hinv, a, ha, hinv.g⟩
  | succ f ih =>
    intro a w hinv ha w1 hw1
    have hne : w.sim.events ≠ [] := by
      obtain ⟨uq, hev, _⟩ := hinv.ev
      rw [hev]
      exact Insert_ne_nil _ _
    rw [RunTrace_succ _ _ _ hinv.stop hne, List.mem_cons] at hw1
    rcases hw1 with hw1 | hw1
    · subst hw1
      exact ⟨blue_inv_pending cfg queue _ _ hinv, a, ha, hinv.g⟩
    · rcases blue_step cfg queue w a hinv with ⟨hfa, hi⟩ | ⟨-, hst, -, hg⟩
      · have hlt := (fires_iff_lt_numTicks _ _ _ hQ).1 hfa
        exact ih (a + 1) _ hi (by omega) w1 hw1
      · rw [RunTrace_stop _ _ _ hst, List.mem_singleton] at hw1
        subst hw1
        exact ⟨blue_pending_step cfg queue w a hinv, a, ha, by rw [hg, hinv.g]⟩

/-- The run of the BLUE scripts and its trace: with enough fuel the run returns
the last world of the trace, and every world of the trace has one pending tick
of the monitor. -/
theorem blue_run_trace (cfg : Config) (queue : QueueDisc) (hQ : 0 < cfg.queueInterval)
    (fuel : Nat) (hf : numTicks cfg.stopTime cfg.queueInterval + 1 ≤ fuel) :
    ∃ w, run cfg queue fuel = some w ∧
      w.g = globalsAfter cfg queue (numTicks cfg.stopTime cfg.queueInterval) ∧
      w.sim.currentTs = cfg.stopTime ∧
      (trace cfg queue fuel).getLast? = some w ∧
      ∀ w1 ∈ trace cfg queue fuel,
        pending Callback.CheckQueueSize w1.sim = 1 ∧
        ∃ a1, a1 ≤ numTicks cfg.stopTime cfg.queueInterval ∧
          w1.g = globalsAfter cfg queue a1 := by
  obtain ⟨w, hw, hg, hts⟩ := blue_run_eq cfg queue hQ fuel hf
  refine ⟨w, hw, hg, hts, ?_, ?_⟩
  · exact RunTrace_getLast _ _ _ _ hw
  · exact blue_trace_inv cfg queue hQ fuel 0 _ (blue_setup_inv cfg queue) (Nat.zero_le _)

end Blue

namespace Ns3

theorem series_times_nodup {α : Type} (N D : Nat) (f : Nat → α) (hD : 0 < D) :
    (((List.range N).map (fun j => (j * D, f j))).map Prod.fst).Nodup := by
  rw [series_times]
  refine List.Nodup.map ?_ (List.nodup_range N)
  intro i j hij
  exact Nat.eq_of_mul_eq_mul_right hD hij

end Ns3

namespace BlueFirst

open Ns3

theorem first_main_trace (cfg : Blue.Config) (discOf : NetDevice → QueueDisc)
    (hQ : 0 < cfg.queueInterval) (fuel : Nat)
    (hf : numTicks cfg.stopTime cfg.queueInterval + 1 ≤ fuel) :
    ∃ out, main cfg discOf fuel = some out ∧
      out.world.g = Blue.globalsAfter cfg (discOf { link := Link.devices_gateway, side := 0 })
        (numTicks cfg.stopTime cfg.queueInterval) ∧
      (Blue.trace cfg (discOf { link := Link.devices_gateway, side := 0 }) fuel).getLast? =
        some out.world ∧
      ∀ w1 ∈ Blue.trace cfg (discOf { link := Link.devices_gateway, side := 0 }) fuel,
        Simulator.pending Blue.Callback.CheckQueueSize w1.sim = 1 := by
  obtain ⟨w, hw, hg, hts, hlast, hall⟩ :=
    Blue.blue_run_trace cfg (discOf { link := Link.devices_gateway, side := 0 }) hQ fuel hf
  refine ⟨{ applications := applications cfg
            interfaces := Ipv4AddressHelper.exec
              (Ipv4AddressHelper.SetBase (Ipv4Address 10 0 0 0) (Ipv4Address 255 255 255 0))
              addressSteps
            queueDiscs := [discOf { link := Link.devices_gateway, side := 0 },
              discOf { link := Link.devices_gateway, side := 1 }]
            world := w
            console :=
              [((discOf { link := Link.devices_gateway, side := 0 }).GetStats
                  cfg.stopTime).unforcedDrop,
               ((discOf { link := Link.devices_gateway, side := 0 }).GetStats
                  cfg.stopTime).forcedDrop] }, ?_, hg, hlast, fun w1 h1 => (hall w1 h1).1⟩
  simp [main, QueueDiscContainer.Get, TrafficControlHelper.Install, PointToPointHelper.Install,
    hw, Simulator.Now, hts]

end BlueFirst

namespace BlueFourth

open Ns3

theorem fourth_main_trace (cfg : Blue.Config) (discOf : NetDevice → QueueDisc)
    (hQ : 0 < cfg.queueInterval) (fuel : Nat)
    (hf : numTicks cfg.stopTime cfg.queueInterval + 1 ≤ fuel) :
    ∃ out, main cfg discOf fuel = some out ∧
      out.world.g = Blue.globalsAfter cfg (discOf { link := Link.devices_gateway, side := 0 })
        (numTicks cfg.stopTime cfg.queueInterval) ∧
      (Blue.trace cfg (discOf { link := Link.devices_gateway, side := 0 }) fuel).getLast? =
        some out.world ∧
      ∀ w1 ∈ Blue.trace cfg (discOf { link := Link.devices_gateway, side := 0 }) fuel,
        Simulator.pending Blue.Callback.CheckQueueSize w1.sim = 1 := by
  obtain ⟨w, hw, hg, hts, hlast, hall⟩ :=
    Blue.blue_run_trace cfg (discOf { link := Link.devices_gateway, side := 0 }) hQ fuel hf
  refine ⟨{ applications := applications
            interfaces := Ipv4AddressHelper.exec
              (Ipv4AddressHelper.SetBase (Ipv4Address 10 0 0 0) (Ipv4Address 255 255 255 0))
              addressSteps
            queueDiscs := [discOf { link := Link.devices_gateway, side := 0 },
              discOf { link := Link.devices_gateway, side := 1 }]
            world := w
            console :=
              [((discOf { link := Link.devices_gateway, side := 0 }).GetStats
                  cfg.stopTime).unforcedDrop,
               ((discOf { link := Link.devices_gateway, side := 0 }).GetStats
                  cfg.stopTime).forcedDrop,
               ((discOf { link := Link.devices_gateway, side := 1 }).GetStats
                  cfg.stopTime).unforcedDrop,
               ((discOf { link := Link.devices_gateway, side := 1 }).GetStats
                  cfg.stopTime).forcedDrop] }, ?_, hg, hlast, fun w1 h1 => (hall w1 h1).1⟩
  simp [main, QueueDiscContainer.Get, TrafficControlHelper.Install, PointToPointHelper.Install,
    hw, Simulator.Now, hts]

end BlueFourth

namespace ThirdMix

open Ns3

theorem mix_take_sum (cfg : Config) (queue : QueueDisc) (a k : Nat) (hk : k ≤ a) :
    (((List.take k ((List.range a).map (fun j =>
        (j * cfg.queueInterval, queueSample cfg queue j)))).map
      (fun (p : Nat × Nat) => (p.2 : ℚ)))).sum = sampleSum cfg queue k := by
  rw [← List.map_take, List.take_range, Nat.min_eq_left hk]
  simp only [List.map_map, sampleSum]
  rfl

end ThirdMix

open Ns3

/-- C11, the code at the constants of the source. In blue-first and in third-mix
the second occupancy sample is written at 100000000 ns, that is 0.1 s after the
first one at time 0, and not `Seconds (0.01)` = 10000000 ns after it; in
blue-fourth the second sample is written at 10000000 ns, 0.01 s after the
first. -/
theorem c11_queue_sample_spacing :
    (∃ out, BlueFirst.main BlueFirst.config sideDisc 1051 = some out ∧
      out.world.g.filePlotQueue[0]? = some (0, 0) ∧
      out.world.g.filePlotQueue[1]? = some (100000000, 0)) ∧
    (∃ out, ThirdMix.main ThirdMix.config sideDisc 11111 = some out ∧
      out.world.g.filePlotQueue[0]? = some (0, 0) ∧
      out.world.g.filePlotQueue[1]? = some (100000000, 0)) ∧
    (∃ out, BlueFourth.main BlueFourth.config sideDisc 10401 = some out ∧
      out.world.g.filePlotQueue[0]? = some (0, 0) ∧
      out.world.g.filePlotQueue[1]? = some (10000000, 0)) ∧
    Seconds 1 100 = 10000000 ∧ 100000000 - 0 ≠ Seconds 1 100 := by
  refine ⟨?_, ?_, ?_, by decide, by decide⟩
  · obtain ⟨out, hout, hg, -⟩ :=
      BlueFirst.first_main_eq BlueFirst.config sideDisc (by decide) 1051 (by decide)
    have hN : numTicks BlueFirst.config.stopTime BlueFirst.config.queueInterval = 1050 := by
      decide
    refine ⟨out, hout, ?_, ?_⟩
    · rw [hg]
      simp only [Blue.globalsAfter]
      rw [hN, List.getElem?_map, List.getElem?_range (by decide)]
      decide
    · rw [hg]
      simp only [Blue.globalsAfter]
      rw [hN, List.getElem?_map, List.getElem?_range (by decide)]
      decide
  · obtain ⟨out, hout, hg, -⟩ :=
      ThirdMix.mix_main_eq ThirdMix.config sideDisc (by decide) (by decide) 11111 (by decide)
    have hN : numTicks ThirdMix.config.stopTime ThirdMix.config.queueInterval = 1010 := by
      decide
    refine ⟨out, hout, ?_, ?_⟩
    · rw [hg]
      simp only [ThirdMix.globalsAfter]
      rw [hN, List.getElem?_map, List.getElem?_range (by decide)]
      decide
    · rw [hg]
      simp only [ThirdMix.globalsAfter]
      rw [hN, List.getElem?_map, List.getElem?_range (by decide)]
      decide
  · obtain ⟨out, hout, hg, -⟩ :=
      BlueFourth.fourth_main_eq BlueFourth.config sideDisc (by decide) 10401 (by decide)
    have hN : numTicks BlueFourth.config.stopTime BlueFourth.config.queueInterval = 10400 := by
      decide
    refine ⟨out, hout, ?_, ?_⟩
    · rw [hg]
      simp only [Blue.globalsAfter]
      rw [hN, List.getElem?_map, List.getElem?_range (by decide)]
      decide
    · rw [hg]
      simp only [Blue.globalsAfter]
      rw [hN, List.getElem?_map, List.getElem?_range (by decide)]
      decide

/-- C12. In third-mix every tick of `CheckDrops` appends to the drop series the
total `unforcedDrop + forcedDrop` of the statistics read at that instant,
computed modulo `2^32`, whatever was written before; in the run the value on
every line is this total at the time of the line, equal to the exact sum
whenever the sum is below `2^32`. The value is the full cumulative total and
is not formed from the value of the previous tick. -/
theorem c12_drops_cumulative_total (cfg : ThirdMix.Config) (discOf : NetDevice → QueueDisc)
    (fuel interval : Nat) (queue : QueueDisc) (w : World ThirdMix.Callback ThirdMix.Globals)
    (hQ : 0 < cfg.queueInterval) (hD : 0 < cfg.dropsInterval)
    (hf : numTicks cfg.stopTime cfg.queueInterval +
      numTicks cfg.stopTime cfg.dropsInterval + 1 ≤ fuel) :
    (ThirdMix.CheckDrops interval queue w).g.filePlotDrops =
      w.g.filePlotDrops ++
        [(Simulator.Now w.sim,
          ((queue.GetStats (Simulator.Now w.sim)).unforcedDrop +
            (queue.GetStats (Simulator.Now w.sim)).forcedDrop) % UINT32_MOD)] ∧
    ∃ out, ThirdMix.main cfg discOf fuel = some out ∧
      ∀ (k t v : Nat), out.world.g.filePlotDrops[k]? = some (t, v) →
        v = (((discOf { link := Link.devices_gateway, side := 0 }).GetStats t).unforcedDrop +
          ((discOf { link := Link.devices_gateway, side := 0 }).GetStats t).forcedDrop)
            % UINT32_MOD ∧
        ((((discOf { link := Link.devices_gateway, side := 0 }).GetStats t).unforcedDrop +
          ((discOf { link := Link.devices_gateway, side := 0 }).GetStats t).forcedDrop)
            < UINT32_MOD →
          v = ((discOf { link := Link.devices_gateway, side := 0 }).GetStats t).unforcedDrop +
            ((discOf { link := Link.devices_gateway, side := 0 }).GetStats t).forcedDrop) := by
  refine ⟨?_, ?_⟩
  · simp [ThirdMix.CheckDrops, Simulator.Schedule, Simulator.Now]
  · obtain ⟨out, hout, hg, -⟩ := ThirdMix.mix_main_eq cfg discOf hQ hD fuel hf
    refine ⟨out, hout, ?_⟩
    intro k t v h
    rw [hg] at h
    obtain ⟨-, ht, hv⟩ := series_getElem _ _ _ k t v h
    subst ht
    refine ⟨hv, ?_⟩
    intro hlt
    rw [hv, ThirdMix.dropsSample, Nat.mod_eq_of_lt hlt]

/-- Witness for C12: the constants of the source, the disciplines `sideDisc`,
and a tick of `CheckDrops` on the world left by the scheduling part of
`main`. -/
theorem c12_drops_cumulative_total_witness :
    (0 < ThirdMix.config.queueInterval ∧ 0 < ThirdMix.config.dropsInterval ∧
      numTicks ThirdMix.config.stopTime ThirdMix.config.queueInterval +
        numTicks ThirdMix.config.stopTime ThirdMix.config.dropsInterval + 1 ≤ 11111) ∧
    ((ThirdMix.CheckDrops (Seconds 1 100) (sideDisc { link := Link.devices_gateway, side := 1 })
        (ThirdMix.setup ThirdMix.config)).g.filePlotDrops =
      (ThirdMix.setup ThirdMix.config).g.filePlotDrops ++
        [(Simulator.Now (ThirdMix.setup ThirdMix.config).sim,
          (((sideDisc { link := Link.devices_gateway, side := 1 }).GetStats
              (Simulator.Now (ThirdMix.setup ThirdMix.config).sim)).unforcedDrop +
            ((sideDisc { link := Link.devices_gateway, side := 1 }).GetStats
              (Simulator.Now (ThirdMix.setup ThirdMix.config).sim)).forcedDrop) % UINT32_MOD)] ∧
    ∃ out, ThirdMix.main ThirdMix.config sideDisc 11111 = some out ∧
      ∀ (k t v : Nat), out.world.g.filePlotDrops[k]? = some (t, v) →
        v = (((sideDisc { link := Link.devices_gateway, side := 0 }).GetStats t).unforcedDrop +
          ((sideDisc { link := Link.devices_gateway, side := 0 }).GetStats t).forcedDrop)
            % UINT32_MOD ∧
        ((((sideDisc { link := Link.devices_gateway, side := 0 }).GetStats t).unforcedDrop +
          ((sideDisc { link := Link.devices_gateway, side := 0 }).GetStats t).forcedDrop)
            < UINT32_MOD →
          v = ((sideDisc { link := Link.devices_gateway, side := 0 }).GetStats t).unforcedDrop +
            ((sideDisc { link := Link.devices_gateway, side := 0 }).GetStats t).forcedDrop)) :=
  ⟨by decide, c12_drops_cumulative_total ThirdMix.config sideDisc 11111 (Seconds 1 100)
    (sideDisc { link := Link.devices_gateway, side := 1 }) (ThirdMix.setup ThirdMix.config)
    (by decide) (by decide) (by decide)⟩

/-- C13. In third-mix `CheckQueueSize` divides by the value of `checkTimes` it
has just incremented. In every run with fewer than `2^32` ticks of
`CheckQueueSize`, at every point between two events `checkTimes` is the number
of ticks executed so far, and on every line `k + 1` of the running-average file
the quotient was taken with the divisor `k + 1`, the number of ticks executed
including the current one: the divisor is at least 1 and the value is
finite. -/
theorem c13_divisor_at_least_one (cfg : ThirdMix.Config) (discOf : NetDevice → QueueDisc)
    (fuel interval : Nat) (queue : QueueDisc) (w : World ThirdMix.Callback ThirdMix.Globals)
    (hQ : 0 < cfg.queueInterval) (hD : 0 < cfg.dropsInterval)
    (hf : numTicks cfg.stopTime cfg.queueInterval +
      numTicks cfg.stopTime cfg.dropsInterval + 1 ≤ fuel)
    (hticks : numTicks cfg.stopTime cfg.queueInterval < UINT32_MOD) :
    ((ThirdMix.CheckQueueSize interval queue w).g.checkTimes =
        (w.g.checkTimes + 1) % UINT32_MOD ∧
      (ThirdMix.CheckQueueSize interval queue w).g.filePlotQueueAvg =
        w.g.filePlotQueueAvg ++
          [(Simulator.Now w.sim,
            doubleDiv (ThirdMix.CheckQueueSize interval queue w).g.avgQueueSize
              (ThirdMix.CheckQueueSize interval queue w).g.checkTimes)]) ∧
    ∃ out, ThirdMix.main cfg discOf fuel = some out ∧
      (ThirdMix.trace cfg (discOf { link := Link.devices_gateway, side := 0 }) fuel).getLast? =
        some out.world ∧
      ∀ w1 ∈ ThirdMix.trace cfg (discOf { link := Link.devices_gateway, side := 0 }) fuel,
        w1.g.checkTimes = w1.g.filePlotQueueAvg.length ∧
        ∀ (k t : Nat) (v : Option ℚ), w1.g.filePlotQueueAvg[k]? = some (t, v) →
          1 ≤ k + 1 ∧ v ≠ none ∧
          v = doubleDiv
            (((w1.g.filePlotQueue.take (k + 1)).map (fun (p : Nat × Nat) => (p.2 : ℚ))).sum)
            (k + 1) := by
  refine ⟨⟨?_, ?_⟩, ?_⟩
  · simp [ThirdMix.CheckQueueSize, Simulator.Schedule]
  · simp [ThirdMix.CheckQueueSize, Simulator.Schedule, Simulator.Now]
  · obtain ⟨out, hout, -, hlast, hall⟩ := ThirdMix.mix_main_trace cfg discOf hQ hD fuel hf
    refine ⟨out, hout, hlast, ?_⟩
    intro w1 hw1
    obtain ⟨-, a1, b1, ha1, -, hg⟩ := hall w1 hw1
    rw [hg]
    refine ⟨?_, ?_⟩
    · simp only [ThirdMix.globalsAfter, List.length_map, List.length_range]
      exact Nat.mod_eq_of_lt (by omega)
    · intro k t v h
      obtain ⟨hk, -, hv⟩ := series_getElem _ _ _ k t v h
      have hmod : (k + 1) % UINT32_MOD = k + 1 := Nat.mod_eq_of_lt (by omega)
      have hsum := ThirdMix.mix_take_sum cfg
        (discOf { link := Link.devices_gateway, side := 0 }) a1 (k + 1) (by omega)
      simp only [ThirdMix.globalsAfter]
      rw [hsum, hv, hmod]
      refine ⟨by omega, ?_, rfl⟩
      simp [doubleDiv]

/-- Witness for C13: the constants of the source (1010 ticks of
`CheckQueueSize`), the disciplines `sideDisc`, and a tick of `CheckQueueSize`
on the world left by the scheduling part of `main`. -/
theorem c13_divisor_at_least_one_witness :
    (0 < ThirdMix.config.queueInterval ∧ 0 < ThirdMix.config.dropsInterval ∧
      numTicks ThirdMix.config.stopTime ThirdMix.config.queueInterval +
        numTicks ThirdMix.config.stopTime ThirdMix.config.dropsInterval + 1 ≤ 11111 ∧
      numTicks ThirdMix.config.stopTime ThirdMix.config.queueInterval < UINT32_MOD) ∧
    (((ThirdMix.CheckQueueSize (Seconds 1 10) (sideDisc { link := Link.devices_gateway, side := 1 })
          (ThirdMix.setup ThirdMix.config)).g.checkTimes =
        ((ThirdMix.setup ThirdMix.config).g.checkTimes + 1) % UINT32_MOD ∧
      (ThirdMix.CheckQueueSize (Seconds 1 10) (sideDisc { link := Link.devices_gateway, side := 1 })
          (ThirdMix.setup ThirdMix.config)).g.filePlotQueueAvg =
        (ThirdMix.setup ThirdMix.config).g.filePlotQueueAvg ++
          [(Simulator.Now (ThirdMix.setup ThirdMix.config).sim,
            doubleDiv (ThirdMix.CheckQueueSize (Seconds 1 10)
                (sideDisc { link := Link.devices_gateway, side := 1 })
                (ThirdMix.setup ThirdMix.config)).g.avgQueueSize
              (ThirdMix.CheckQueueSize (Seconds 1 10)
                (sideDisc { link := Link.devices_gateway, side := 1 })
                (ThirdMix.setup ThirdMix.config)).g.checkTimes)]) ∧
    ∃ out, ThirdMix.main ThirdMix.config sideDisc 11111 = some out ∧
      (ThirdMix.trace ThirdMix.config (sideDisc { link := Link.devices_gateway, side := 0 })
        11111).getLast? = some out.world ∧
      ∀ w1 ∈ ThirdMix.trace ThirdMix.config
          (sideDisc { link := Link.devices_gateway, side := 0 }) 11111,
        w1.g.checkTimes = w1.g.filePlotQueueAvg.length ∧
        ∀ (k t : Nat) (v : Option ℚ), w1.g.filePlotQueueAvg[k]? = some (t, v) →
          1 ≤ k + 1 ∧ v ≠ none ∧
          v = doubleDiv
            (((w1.g.filePlotQueue.take (k + 1)).map (fun (p : Nat × Nat) => (p.2 : ℚ))).sum)
            (k + 1)) :=
  ⟨by decide, c13_divisor_at_least_one ThirdMix.config sideDisc 11111 (Seconds 1 10)
    (sideDisc { link := Link.devices_gateway, side := 1 }) (ThirdMix.setup ThirdMix.config)
    (by decide) (by decide) (by decide) (by decide)⟩

/-- C14. Every tick of a monitor callback schedules exactly one successor of
itself and no tick of another monitor. In the run of each script, where every
monitor is attached once by `ScheduleNow`, every world between two event
executions (from the start of `Simulator::Run` to its return) holds exactly
one pending tick of each monitor, so the number of pending monitor events never
grows, and no two lines of a series carry the same time. -/
theorem c14_one_pending_tick (c1 c4 : Blue.Config) (c3 : ThirdMix.Config)
    (discOf : NetDevice → QueueDisc) (fuel interval : Nat) (queue : QueueDisc)
    (wb : World Blue.Callback Blue.Globals) (wm : World ThirdMix.Callback ThirdMix.Globals)
    (h1 : 0 < c1.queueInterval) (h4 : 0 < c4.queueInterval)
    (hq : 0 < c3.queueInterval) (hd : 0 < c3.dropsInterval)
    (hf1 : numTicks c1.stopTime c1.queueInterval + 1 ≤ fuel)
    (hf4 : numTicks c4.stopTime c4.queueInterval + 1 ≤ fuel)
    (hf3 : numTicks c3.stopTime c3.queueInterval + numTicks c3.stopTime c3.dropsInterval + 1
      ≤ fuel) :
    (Simulator.pending Blue.Callback.CheckQueueSize (Blue.CheckQueueSize interval queue wb).sim =
        Simulator.pending Blue.Callback.CheckQueueSize wb.sim + 1) ∧
    (Simulator.pending ThirdMix.Callback.CheckQueueSize
          (ThirdMix.CheckQueueSize interval queue wm).sim =
        Simulator.pending ThirdMix.Callback.CheckQueueSize wm.sim + 1 ∧
      Simulator.pending ThirdMix.Callback.CheckDrops
          (ThirdMix.CheckQueueSize interval queue wm).sim =
        Simulator.pending ThirdMix.Callback.CheckDrops wm.sim) ∧
    (Simulator.pending ThirdMix.Callback.CheckDrops (ThirdMix.CheckDrops interval queue wm).sim =
        Simulator.pending ThirdMix.Callback.CheckDrops wm.sim + 1 ∧
      Simulator.pending ThirdMix.Callback.CheckQueueSize
          (ThirdMix.CheckDrops interval queue wm).sim =
        Simulator.pending ThirdMix.Callback.CheckQueueSize wm.sim) ∧
    (∃ out, BlueFirst.main c1 discOf fuel = some out ∧
      (Blue.trace c1 (discOf { link := Link.devices_gateway, side := 0 }) fuel).getLast? =
        some out.world ∧
      (∀ w1 ∈ Blue.trace c1 (discOf { link := Link.devices_gateway, side := 0 }) fuel,
        Simulator.pending Blue.Callback.CheckQueueSize w1.sim = 1) ∧
      (out.world.g.filePlotQueue.map Prod.fst).Nodup) ∧
    (∃ out, BlueFourth.main c4 discOf fuel = some out ∧
      (Blue.trace c4 (discOf { link := Link.devices_gateway, side := 0 }) fuel).getLast? =
        some out.world ∧
      (∀ w1 ∈ Blue.trace c4 (discOf { link := Link.devices_gateway, side := 0 }) fuel,
        Simulator.pending Blue.Callback.CheckQueueSize w1.sim = 1) ∧
      (out.world.g.filePlotQueue.map Prod.fst).Nodup) ∧
    (∃ out, ThirdMix.main c3 discOf fuel = some out ∧
      (ThirdMix.trace c3 (discOf { link := Link.devices_gateway, side := 0 }) fuel).getLast? =
        some out.world ∧
      (∀ w1 ∈ ThirdMix.trace c3 (discOf { link := Link.devices_gateway, side := 0 }) fuel,
        Simulator.pending ThirdMix.Callback.CheckQueueSize w1.sim = 1 ∧
        Simulator.pending ThirdMix.Callback.CheckDrops w1.sim = 1) ∧
      (out.world.g.filePlotQueue.map Prod.fst).Nodup ∧
      (out.world.g.filePlotQueueAvg.map Prod.fst).Nodup ∧
      (out.world.g.filePlotDrops.map Prod.fst).Nodup) := by
  refine ⟨?_, ⟨?_, ?_⟩, ⟨?_, ?_⟩, ?_, ?_, ?_⟩
  · simp [Blue.CheckQueueSize, Simulator.Schedule, Simulator.pending, Simulator.countP_Insert]
  · simp [ThirdMix.CheckQueueSize, Simulator.Schedule, Simulator.pending,
      Simulator.countP_Insert]
  · simp [ThirdMix.CheckQueueSize, Simulator.Schedule, Simulator.pending,
      Simulator.countP_Insert]
  · simp [ThirdMix.CheckDrops, Simulator.Schedule, Simulator.pending, Simulator.countP_Insert]
  · simp [ThirdMix.CheckDrops, Simulator.Schedule, Simulator.pending, Simulator.countP_Insert]
  · obtain ⟨out, hout, hg, hlast, hall⟩ := BlueFirst.first_main_trace c1 discOf h1 fuel hf1
    refine ⟨out, hout, hlast, hall, ?_⟩
    rw [hg]
    exact series_times_nodup _ _ _ h1
  · obtain ⟨out, hout, hg, hlast, hall⟩ := BlueFourth.fourth_main_trace c4 discOf h4 fuel hf4
    refine ⟨out, hout, hlast, hall, ?_⟩
    rw [hg]
    exact series_times_nodup _ _ _ h4
  · obtain ⟨out, hout, hg, hlast, hall⟩ := ThirdMix.mix_main_trace c3 discOf hq hd fuel hf3
    refine ⟨out, hout, hlast, fun w1 hw1 => (hall w1 hw1).1, ?_, ?_, ?_⟩
    · rw [hg]; exact series_times_nodup _ _ _ hq
    · rw [hg]; exact series_times_nodup _ _ _ hq
    · rw [hg]; exact series_times_nodup _ _ _ hd

/-- Witness for C14: the constants of the three scripts, the disciplines
`sideDisc`, and single ticks on the worlds left by the scheduling part of
`main`. -/
theorem c14_one_pending_tick_witness :
    (0 < BlueFirst.config.queueInterval ∧ 0 < BlueFourth.config.queueInterval ∧
      0 < ThirdMix.config.queueInterval ∧ 0 < ThirdMix.config.dropsInterval ∧
      numTicks BlueFirst.config.stopTime BlueFirst.config.queueInterval + 1 ≤ 11111 ∧
      numTicks BlueFourth.config.stopTime BlueFourth.config.queueInterval + 1 ≤ 11111 ∧
      numTicks ThirdMix.config.stopTime ThirdMix.config.queueInterval +
        numTicks ThirdMix.config.stopTime ThirdMix.config.dropsInterval + 1 ≤ 11111) ∧
    ((Simulator.pending Blue.Callback.CheckQueueSize
        (Blue.CheckQueueSize (Seconds 1 10) (sideDisc { link := Link.devices_gateway, side := 0 })
          (Blue.setup BlueFirst.config)).sim =
        Simulator.pending Blue.Callback.CheckQueueSize (Blue.setup BlueFirst.config).sim + 1) ∧
    (Simulator.pending ThirdMix.Callback.CheckQueueSize
          (ThirdMix.CheckQueueSize (Seconds 1 10)
            (sideDisc { link := Link.devices_gateway, side := 0 })
            (ThirdMix.setup ThirdMix.config)).sim =
        Simulator.pending ThirdMix.Callback.CheckQueueSize (ThirdMix.setup ThirdMix.config).sim
          + 1 ∧
      Simulator.pending ThirdMix.Callback.CheckDrops
          (ThirdMix.CheckQueueSize (Seconds 1 10)
            (sideDisc { link := Link.devices_gateway, side := 0 })
            (ThirdMix.setup ThirdMix.config)).sim =
        Simulator.pending ThirdMix.Callback.CheckDrops (ThirdMix.setup ThirdMix.config).sim) ∧
    (Simulator.pending ThirdMix.Callback.CheckDrops
          (ThirdMix.CheckDrops (Seconds 1 10)
            (sideDisc { link := Link.devices_gateway, side := 0 })
            (ThirdMix.setup ThirdMix.config)).sim =
        Simulator.pending ThirdMix.Callback.CheckDrops (ThirdMix.setup ThirdMix.config).sim
          + 1 ∧
      Simulator.pending ThirdMix.Callback.CheckQueueSize
          (ThirdMix.CheckDrops (Seconds 1 10)
            (sideDisc { link := Link.devices_gateway, side := 0 })
            (ThirdMix.setup ThirdMix.config)).sim =
        Simulator.pending ThirdMix.Callback.CheckQueueSize
          (ThirdMix.setup ThirdMix.config).sim) ∧
    (∃ out, BlueFirst.main BlueFirst.config sideDisc 11111 = some out ∧
      (Blue.trace BlueFirst.config (sideDisc { link := Link.devices_gateway, side := 0 })
        11111).getLast? = some out.world ∧
      (∀ w1 ∈ Blue.trace BlueFirst.config
          (sideDisc { link := Link.devices_gateway, side := 0 }) 11111,
        Simulator.pending Blue.Callback.CheckQueueSize w1.sim = 1) ∧
      (out.world.g.filePlotQueue.map Prod.fst).Nodup) ∧
    (∃ out, BlueFourth.main BlueFourth.config sideDisc 11111 = some out ∧
      (Blue.trace BlueFourth.config (sideDisc { link := Link.devices_gateway, side := 0 })
        11111).getLast? = some out.world ∧
      (∀ w1 ∈ Blue.trace BlueFourth.config
          (sideDisc { link := Link.devices_gateway, side := 0 }) 11111,
        Simulator.pending Blue.Callback.CheckQueueSize w1.sim = 1) ∧
      (out.world.g.filePlotQueue.map Prod.fst).Nodup) ∧
    (∃ out, ThirdMix.main ThirdMix.config sideDisc 11111 = some out ∧
      (ThirdMix.trace ThirdMix.config (sideDisc { link := Link.devices_gateway, side := 0 })
        11111).getLast? = some out.world ∧
      (∀ w1 ∈ ThirdMix.trace ThirdMix.config
          (sideDisc { link := Link.devices_gateway, side := 0 }) 11111,
        Simulator.pending ThirdMix.Callback.CheckQueueSize w1.sim = 1 ∧
        Simulator.pending ThirdMix.Callback.CheckDrops w1.sim = 1) ∧
      (out.world.g.filePlotQueue.map Prod.fst).Nodup ∧
      (out.world.g.filePlotQueueAvg.map Prod.fst).Nodup ∧
      (out.world.g.filePlotDrops.map Prod.fst).Nodup)) :=
  ⟨by decide, c14_one_pending_tick BlueFirst.config BlueFourth.config ThirdMix.config sideDisc
    11111 (Seconds 1 10) (sideDisc { link := Link.devices_gateway, side := 0 })
    (Blue.setup BlueFirst.config) (ThirdMix.setup ThirdMix.config)
    (by decide) (by decide) (by decide) (by decide) (by decide) (by decide) (by decide)⟩
